import Mathlib

/-!
Verification of the multi-channel notification dispatcher (html-to-pdf service).

This file is a shallow embedding, in Lean 4, of the parts of the Rust source
that the specification's claims are about:

* the Operation registry (`src/services/operation_service.rs`),
* the Channel registry (`src/services/notification_channel_service.rs`),
* the dispatcher (`src/services/notification_service.rs`,
  `NotificationService::process_notification`),
* the notification HTTP handler
  (`src/handlers/notification_handler.rs`, `send_unified_notification_endpoint`),
* the PDF service (`src/services/pdf_service.rs`, `PdfService::generate_pdf`,
  the chromiumoxide implementation actually present in the source tree),
* the SMTP message builder (`src/services/email_service.rs`,
  `EmailService::send_email_via_smtp`).

Modelling conventions:

* The SQLite store is a list of rows; a SQL `UPDATE ... WHERE id = ?` is a
  `List.map` that rewrites exactly the rows whose `id` matches, which is the
  row-scoped atomic update the store provides.
* Timestamps are instants modelled as `Nat`.  The dispatcher-level state
  carries a logical clock `time` that is advanced by one on every store write
  that reads a wall clock in the source (`Utc::now()` / `CURRENT_TIMESTAMP`);
  `update_operation_status` reads no clock in the source and therefore does
  not advance it.
* External effects (the PDF renderer, the SMTP transmission performed by
  `EmailService::send_unified`, whose definition is not among the sources —
  only its callers are — and the WhatsApp HTTP exchange) are oracles: the
  environment `DispatchEnv` fixes the outcome of each such call.  `anyhow`
  errors are modelled as their chain of messages (outermost context first);
  `Display` formatting (`{}`) shows the outermost message only, `Debug`
  formatting (`{:?}`) shows the whole chain, as `anyhow` does.
* UUID draws (`Uuid::new_v4()`) are an oracle `chanIds : Nat → String` /
  `opId`; theorems that need freshness state it as an explicit hypothesis.
* `tokio::spawn` of the async branch is modelled by running the detached task
  to completion after the HTTP response (which does not depend on it) has
  been computed; claims about the async branch only look at the response and
  at the eventual state.
-/

/-! ## Data model (src/models) -/

/-- A row of the `operations` table (`src/models/operation_model.rs`,
`OperationRecord`). -/
structure OperationRow where
  id : String
  operation_type : String
  status : String
  error_message : Option String
  is_async : Bool
  created_at : Nat
  updated_at : Nat
  metadata : Option String
deriving Repr, DecidableEq

/-- A row of the `operation_channels` table
(`src/models/operation_channel_model.rs`, `OperationChannelRecord`). -/
structure ChannelRow where
  id : String
  operation_id : String
  channel : String
  status : String
  error_message : Option String
  created_at : Nat
  updated_at : Nat
  attempts : Int
deriving Repr, DecidableEq

/-! ## Operation registry (src/services/operation_service.rs) -/

/-- Row transformer of `OperationService::update_operation_status`
(lines 192–208): `UPDATE operations SET status = ?1, error_message = ?2 WHERE
id = ?3`.  Only `status` and `error_message` are written; no clock is read. -/
def applyOpStatusUpd (operation_id status : String) (error : Option String)
    (r : OperationRow) : OperationRow :=
  if r.id = operation_id then { r with status := status, error_message := error } else r

/-- Embeds `OperationService::update_operation_status` on the whole table. -/
def update_operation_status (db : List OperationRow) (operation_id status : String)
    (error : Option String) : List OperationRow :=
  db.map (applyOpStatusUpd operation_id status error)

/-- Row transformer of `OperationService::update_operation` (lines 62–87):
`UPDATE operations SET status = ?2, error_message = ?3, updated_at = ?4 WHERE
id = ?1` with `?4 = Utc::now()`. -/
def applyOpUpd (op_id new_status : String) (error_message : Option String) (now : Nat)
    (r : OperationRow) : OperationRow :=
  if r.id = op_id then
    { r with status := new_status, error_message := error_message, updated_at := now }
  else r

/-- Embeds `OperationService::update_operation` on the whole table. -/
def update_operation (db : List OperationRow) (op_id new_status : String)
    (error_message : Option String) (now : Nat) : List OperationRow :=
  db.map (applyOpUpd op_id new_status error_message now)

/-- Row transformer of `OperationService::mark_operation_failed` (lines
172–190): `UPDATE operations SET status = 'failed', error_message = ?,
updated_at = CURRENT_TIMESTAMP WHERE id = ?`. -/
def applyMarkFailed (op_id : String) (error : String) (now : Nat)
    (r : OperationRow) : OperationRow :=
  if r.id = op_id then
    { r with status := "failed", error_message := some error, updated_at := now }
  else r

/-- Embeds `OperationService::mark_operation_failed` on the whole table. -/
def mark_operation_failed (db : List OperationRow) (op_id : String) (error : String)
    (now : Nat) : List OperationRow :=
  db.map (applyMarkFailed op_id error now)

/-! ## Channel registry (src/services/notification_channel_service.rs) -/

/-- The single SQL statement issued by
`NotificationChannelService::update_channel_status` (lines 48–88).  The
`attempts` bump is spliced into the same `UPDATE`, so the whole call is one
`execute`, i.e. one store round-trip. -/
def update_channel_status_sql (increment_attempt : Bool) : List String :=
  ["UPDATE operation_channels SET status = ?1, error_message = ?2, updated_at = ?3"
    ++ (if increment_attempt then ", attempts = attempts + 1" else "")
    ++ " WHERE id = ?4"]

/-- Row transformer of `NotificationChannelService::update_channel_status`:
status, error and `updated_at` are written, and `attempts` is bumped in the
same row update exactly when `increment_attempt` is set. -/
def applyChanUpd (channel_id status : String) (error_message : Option String)
    (increment_attempt : Bool) (now : Nat) (r : ChannelRow) : ChannelRow :=
  if r.id = channel_id then
    { r with status := status, error_message := error_message, updated_at := now,
             attempts := if increment_attempt then r.attempts + 1 else r.attempts }
  else r

/-- Embeds `NotificationChannelService::update_channel_status` on the whole table. -/
def update_channel_status (db : List ChannelRow) (channel_id status : String)
    (error_message : Option String) (increment_attempt : Bool) (now : Nat) :
    List ChannelRow :=
  db.map (applyChanUpd channel_id status error_message increment_attempt now)

/-- Embeds `NotificationChannelService::create_channel` (lines 18–46): inserts a row
with `error_message = NULL`, `created_at = updated_at = now`, `attempts = 0`. -/
def create_channel (db : List ChannelRow) (ch_id operation_id channel initial_status : String)
    (now : Nat) : List ChannelRow :=
  db ++ [{ id := ch_id, operation_id := operation_id, channel := channel,
           status := initial_status, error_message := none,
           created_at := now, updated_at := now, attempts := 0 }]

/-- Embeds `NotificationChannelService::list_channels_for_operation` (lines 116–147):
`SELECT ... FROM operation_channels WHERE operation_id = ?1`. -/
def list_channels_for_operation (db : List ChannelRow) (operation_id : String) :
    List ChannelRow :=
  db.filter (fun r => r.operation_id == operation_id)

/-- The `attempts` column of the row addressed by `channel_id`, if present. -/
def attemptsOf (db : List ChannelRow) (channel_id : String) : Option Int :=
  (db.find? (fun r => r.id == channel_id)).map (·.attempts)

/-- One admissible call to `update_channel_status`. -/
structure ChanCall where
  channel_id : String
  status : String
  error_message : Option String
  increment_attempt : Bool
  now : Nat

/-- A sequence of `update_channel_status` calls, applied in order. -/
def runChannelCalls (db : List ChannelRow) (calls : List ChanCall) : List ChannelRow :=
  calls.foldl
    (fun d c => update_channel_status d c.channel_id c.status c.error_message
      c.increment_attempt c.now) db

/-! ### Generic row-lookup lemmas -/

theorem find?_map_id_preserving {α : Type} (f : α → α) (p : α → Bool)
    (hf : ∀ a, p (f a) = p a) (l : List α) :
    (l.map f).find? p = (l.find? p).map f := by
  induction l with
  | nil => rfl
  | cons a l ih =>
    by_cases h : p a = true
    · rw [List.map_cons, List.find?_cons_of_pos _ (by rw [hf]; exact h),
        List.find?_cons_of_pos _ h, Option.map_some']
    · rw [List.map_cons, List.find?_cons_of_neg _ (by rw [hf]; simpa using h),
        List.find?_cons_of_neg _ (by simpa using h), ih]

theorem applyChanUpd_id (channel_id status : String) (error_message : Option String)
    (increment_attempt : Bool) (now : Nat) (r : ChannelRow) :
    (applyChanUpd channel_id status error_message increment_attempt now r).id = r.id := by
  unfold applyChanUpd
  split <;> rfl

/-- Looking up any id after `update_channel_status`: the same row as before,
transformed by the row transformer. -/
theorem find?_update_channel_status (db : List ChannelRow)
    (channel_id status : String) (error_message : Option String)
    (increment_attempt : Bool) (now : Nat) (cid : String) :
    (update_channel_status db channel_id status error_message increment_attempt now).find?
        (fun r => r.id == cid)
      = (db.find? (fun r => r.id == cid)).map
          (applyChanUpd channel_id status error_message increment_attempt now) := by
  refine find?_map_id_preserving _ _ (fun a => ?_) db
  simp [applyChanUpd_id]

theorem applyChanUpd_of_ne (channel_id status : String) (error_message : Option String)
    (increment_attempt : Bool) (now : Nat) (r : ChannelRow) (h : r.id ≠ channel_id) :
    applyChanUpd channel_id status error_message increment_attempt now r = r := by
  unfold applyChanUpd
  simp [h]

theorem applyChanUpd_of_eq (channel_id status : String) (error_message : Option String)
    (increment_attempt : Bool) (now : Nat) (r : ChannelRow) (h : r.id = channel_id) :
    applyChanUpd channel_id status error_message increment_attempt now r
      = { r with status := status, error_message := error_message, updated_at := now,
                 attempts := if increment_attempt then r.attempts + 1 else r.attempts } := by
  unfold applyChanUpd
  simp [h]

/-- A single `update_channel_status` call never decreases any row's
`attempts`. -/
theorem attemptsOf_update_ge (db : List ChannelRow) (c : ChanCall) (cid : String) (a : Int)
    (h : attemptsOf db cid = some a) :
    ∃ b, a ≤ b ∧
      attemptsOf (update_channel_status db c.channel_id c.status c.error_message
        c.increment_attempt c.now) cid = some b := by
  unfold attemptsOf at h ⊢
  rw [find?_update_channel_status]
  cases hf : db.find? (fun r => r.id == cid) with
  | none => rw [hf] at h; simp at h
  | some r =>
    rw [hf] at h
    simp only [Option.map_some'] at h ⊢
    unfold applyChanUpd
    split
    · refine ⟨if c.increment_attempt then r.attempts + 1 else r.attempts, ?_, by simp⟩
      cases h
      split <;> omega
    · exact ⟨a, le_refl a, h⟩

/-- Over any sequence of `update_channel_status` calls, `attempts` is
non-decreasing. -/
theorem attemptsOf_runChannelCalls_ge (calls : List ChanCall) (db : List ChannelRow)
    (cid : String) (a : Int) (h : attemptsOf db cid = some a) :
    ∃ b, a ≤ b ∧ attemptsOf (runChannelCalls db calls) cid = some b := by
  induction calls generalizing db a with
  | nil => exact ⟨a, le_refl a, h⟩
  | cons c rest ih =>
    obtain ⟨b, hab, hb⟩ := attemptsOf_update_ge db c cid a h
    obtain ⟨b2, hbb2, hb2⟩ := ih _ _ hb
    exact ⟨b2, le_trans hab hbb2, hb2⟩

/-- C2 — `update_channel_status` issues one single UPDATE statement; with
`increment_attempts=true` the addressed row simultaneously receives the new
status and an `attempts` bump of exactly 1; with `false` its `attempts` is
untouched; consequently `attempts` is non-decreasing over any sequence of
admissible calls.  (`src/services/notification_channel_service.rs` 48–88.) -/
theorem update_channel_status_single_statement_and_attempts
    (db : List ChannelRow) (channel_id status : String)
    (error_message : Option String) (now : Nat) :
    (∀ b : Bool, (update_channel_status_sql b).length = 1)
    ∧ ((update_channel_status db channel_id status error_message true now).find?
          (fun r => r.id == channel_id)
        = (db.find? (fun r => r.id == channel_id)).map
            (fun r => { r with status := status, error_message := error_message,
                               updated_at := now, attempts := r.attempts + 1 }))
    ∧ (attemptsOf (update_channel_status db channel_id status error_message true now)
          channel_id
        = (attemptsOf db channel_id).map (fun a => a + 1))
    ∧ (attemptsOf (update_channel_status db channel_id status error_message false now)
          channel_id
        = attemptsOf db channel_id)
    ∧ (∀ (calls : List ChanCall) (cid : String) (a : Int),
        attemptsOf db cid = some a →
        ∃ b, a ≤ b ∧ attemptsOf (runChannelCalls db calls) cid = some b) := by
  refine ⟨fun b => rfl, ?_, ?_, ?_, fun calls cid a h => attemptsOf_runChannelCalls_ge calls db cid a h⟩
  · rw [find?_update_channel_status]
    cases hf : db.find? (fun r => r.id == channel_id) with
    | none => simp
    | some r =>
      have : r.id = channel_id := by
        have := List.find?_some hf
        simpa using this
      simp [applyChanUpd_of_eq _ _ _ _ _ _ this]
  · unfold attemptsOf
    rw [find?_update_channel_status]
    cases hf : db.find? (fun r => r.id == channel_id) with
    | none => simp
    | some r =>
      have : r.id = channel_id := by
        have := List.find?_some hf
        simpa using this
      simp [applyChanUpd_of_eq _ _ _ _ _ _ this]
  · unfold attemptsOf
    rw [find?_update_channel_status]
    cases hf : db.find? (fun r => r.id == channel_id) with
    | none => simp
    | some r =>
      have : r.id = channel_id := by
        have := List.find?_some hf
        simpa using this
      simp [applyChanUpd_of_eq _ _ _ _ _ _ this]

/-- Witness for C2: a concrete table and call sequence exercising the
theorem's hypothesised lookup. -/
theorem update_channel_status_attempts_witness :
    ∃ b : Int, (0 : Int) ≤ b ∧
      attemptsOf
        (runChannelCalls
          [{ id := "ch-1", operation_id := "op-1", channel := "email",
             status := "pending", error_message := none,
             created_at := 0, updated_at := 0, attempts := 0 }]
          [⟨"ch-1", "running", none, false, 1⟩, ⟨"ch-1", "failed", some "boom", true, 2⟩])
        "ch-1" = some b :=
  (update_channel_status_single_statement_and_attempts
    [{ id := "ch-1", operation_id := "op-1", channel := "email",
       status := "pending", error_message := none,
       created_at := 0, updated_at := 0, attempts := 0 }]
    "ch-1" "running" none 1).2.2.2.2
    [⟨"ch-1", "running", none, false, 1⟩, ⟨"ch-1", "failed", some "boom", true, 2⟩]
    "ch-1" 0 rfl

/-! ### C10 — frame of `update_operation_status` -/

/-- C10 — `update_operation_status` writes only `status` and `error_message`
of the addressed rows: every other column of every row (and every other row
entirely) is unchanged, and `updated_at` in particular is not refreshed —
unlike `update_operation`, which writes `updated_at = now`.
(`src/services/operation_service.rs` 192–208 versus 62–87.) -/
theorem update_operation_status_frame (db : List OperationRow)
    (operation_id status : String) (error : Option String) (now : Nat) :
    ((update_operation_status db operation_id status error).length = db.length)
    ∧ (∀ i : Nat,
        ((update_operation_status db operation_id status error)[i]?.map (·.id)
            = db[i]?.map (·.id))
        ∧ ((update_operation_status db operation_id status error)[i]?.map (·.operation_type)
            = db[i]?.map (·.operation_type))
        ∧ ((update_operation_status db operation_id status error)[i]?.map (·.is_async)
            = db[i]?.map (·.is_async))
        ∧ ((update_operation_status db operation_id status error)[i]?.map (·.created_at)
            = db[i]?.map (·.created_at))
        ∧ ((update_operation_status db operation_id status error)[i]?.map (·.updated_at)
            = db[i]?.map (·.updated_at))
        ∧ ((update_operation_status db operation_id status error)[i]?.map (·.metadata)
            = db[i]?.map (·.metadata)))
    ∧ (∀ i : Nat, db[i]?.map (·.id) ≠ some operation_id →
        (update_operation_status db operation_id status error)[i]? = db[i]?)
    ∧ (∀ i : Nat, db[i]?.map (·.id) = some operation_id →
        (update_operation db operation_id status error now)[i]?.map (·.updated_at)
          = some now) := by
  refine ⟨by simp [update_operation_status], ?_, ?_, ?_⟩
  · intro i
    unfold update_operation_status
    rw [List.getElem?_map]
    cases db[i]? with
    | none => simp
    | some r =>
      unfold applyOpStatusUpd
      by_cases h : r.id = operation_id <;> simp [h]
  · intro i h
    unfold update_operation_status
    rw [List.getElem?_map]
    cases hr : db[i]? with
    | none => rfl
    | some r =>
      rw [hr] at h
      simp only [Option.map_some'] at h
      have hne : r.id ≠ operation_id := by
        intro he
        exact h (by rw [he])
      simp [applyOpStatusUpd, hne]
  · intro i h
    unfold update_operation
    rw [List.getElem?_map]
    cases hr : db[i]? with
    | none => rw [hr] at h; simp at h
    | some r =>
      rw [hr] at h
      simp only [Option.map_some'] at h
      have he : r.id = operation_id := by simpa using h
      simp [applyOpUpd, he]

/-- Witness for C10: concrete table exercising both the untouched-row
branch and the `update_operation` contrast branch. -/
theorem update_operation_status_frame_witness :
    ((update_operation_status
        [{ id := "op-1", operation_type := "send_notification", status := "pending",
           error_message := none, is_async := false, created_at := 3, updated_at := 4,
           metadata := some "m" },
         { id := "op-2", operation_type := "generate_pdf", status := "done",
           error_message := none, is_async := true, created_at := 5, updated_at := 6,
           metadata := none }]
        "op-1" "failed" (some "e"))[1]?
      = some { id := "op-2", operation_type := "generate_pdf", status := "done",
               error_message := none, is_async := true, created_at := 5, updated_at := 6,
               metadata := none })
    ∧ ((update_operation
        [{ id := "op-1", operation_type := "send_notification", status := "pending",
           error_message := none, is_async := false, created_at := 3, updated_at := 4,
           metadata := some "m" },
         { id := "op-2", operation_type := "generate_pdf", status := "done",
           error_message := none, is_async := true, created_at := 5, updated_at := 6,
           metadata := none }]
        "op-1" "failed" (some "e") 9)[0]?.map (·.updated_at) = some 9) :=
  ⟨(update_operation_status_frame
      [{ id := "op-1", operation_type := "send_notification", status := "pending",
         error_message := none, is_async := false, created_at := 3, updated_at := 4,
         metadata := some "m" },
       { id := "op-2", operation_type := "generate_pdf", status := "done",
         error_message := none, is_async := true, created_at := 5, updated_at := 6,
         metadata := none }]
      "op-1" "failed" (some "e") 9).2.2.1 1 (by decide),
   (update_operation_status_frame
      [{ id := "op-1", operation_type := "send_notification", status := "pending",
         error_message := none, is_async := false, created_at := 3, updated_at := 4,
         metadata := some "m" },
       { id := "op-2", operation_type := "generate_pdf", status := "done",
         error_message := none, is_async := true, created_at := 5, updated_at := 6,
         metadata := none }]
      "op-1" "failed" (some "e") 9).2.2.2 0 (by decide)⟩

/-! ### C9 — `list_operations` ordering (src/services/operation_service.rs 119–170)

The query is `SELECT ... FROM operations ORDER BY created_at DESC LIMIT ?1
OFFSET ?2`, plus a separate `SELECT COUNT(*)`.  SQL constrains the output
only up to the `ORDER BY` key: rows with equal `created_at` may come back in
any relative order (there is no secondary key in the query).  The embedding
is therefore a relation: an output is admissible iff it is a page slice of
some permutation of the table that is sorted by `created_at` descending. -/

/-- Sorted by `created_at` descending (every later row's `created_at` is ≤
every earlier row's). -/
def createdAtDesc (l : List OperationRow) : Prop :=
  l.Pairwise (fun a b => b.created_at ≤ a.created_at)

instance (l : List OperationRow) : Decidable (createdAtDesc l) := by
  unfold createdAtDesc
  infer_instance

/-- Admissible outputs of `OperationService::list_operations`: `total` is the
table's row count and `items` is the `LIMIT page_size OFFSET (page-1)*page_size`
slice of some `created_at`-descending ordering of the table. -/
def list_operations_valid (table : List OperationRow) (page page_size : Nat)
    (total : Nat) (items : List OperationRow) : Prop :=
  total = table.length ∧
  ∃ ordered : List OperationRow, table.Perm ordered ∧ createdAtDesc ordered ∧
    items = (ordered.drop ((page - 1) * page_size)).take page_size

/-- Two operations that share `created_at = 5`. -/
def opRowTieA : OperationRow :=
  { id := "a", operation_type := "send_notification", status := "done",
    error_message := none, is_async := false, created_at := 5, updated_at := 5,
    metadata := none }

/-- Second operation with the same `created_at` as `opRowTieA`. -/
def opRowTieB : OperationRow :=
  { id := "b", operation_type := "send_notification", status := "done",
    error_message := none, is_async := false, created_at := 5, updated_at := 5,
    metadata := none }

/-- Counterexample to C9: the claim says rows with equal `created_at` are
always returned in the same id order (a stable tie-break on `id`).  The query
orders by `created_at` alone, so on a table holding two rows with equal
`created_at` both id orders are admissible outputs of the code: there is no
id tie-break. -/
theorem list_operations_tiebreak_counterexample :
    list_operations_valid [opRowTieA, opRowTieB] 1 10 2 [opRowTieA, opRowTieB]
    ∧ list_operations_valid [opRowTieA, opRowTieB] 1 10 2 [opRowTieB, opRowTieA]
    ∧ [opRowTieA, opRowTieB].map (·.id) ≠ [opRowTieB, opRowTieA].map (·.id) := by
  refine ⟨⟨rfl, [opRowTieA, opRowTieB], List.Perm.refl _, ?_, rfl⟩,
          ⟨rfl, [opRowTieB, opRowTieA], by decide, ?_, rfl⟩, by decide⟩
  · decide
  · decide

/-- C9 (amended) — every admissible output of `list_operations` is ordered by
`created_at` descending and reports the total table count, and a page holds
at most `page_size` rows; but the order of rows with equal `created_at` is
unconstrained (no id tie-break), as the counterexample shows. -/
theorem list_operations_sorted_desc_and_total (table : List OperationRow)
    (page page_size total : Nat) (items : List OperationRow)
    (h : list_operations_valid table page page_size total items) :
    total = table.length ∧ createdAtDesc items ∧ items.length ≤ page_size := by
  obtain ⟨htot, ordered, _hperm, hsorted, hitems⟩ := h
  refine ⟨htot, ?_, ?_⟩
  · rw [hitems]
    exact hsorted.sublist
      ((List.take_sublist _ _).trans (List.drop_sublist _ _))
  · rw [hitems]
    exact List.length_take_le _ _

/-- Witness for C9 (amended), at a concrete table and output. -/
theorem list_operations_sorted_desc_and_total_witness :
    2 = [opRowTieA, opRowTieB].length ∧ createdAtDesc [opRowTieA, opRowTieB]
    ∧ [opRowTieA, opRowTieB].length ≤ 10 :=
  list_operations_sorted_desc_and_total [opRowTieA, opRowTieB] 1 10 2
    [opRowTieA, opRowTieB]
    ⟨rfl, [opRowTieA, opRowTieB], List.Perm.refl _, by decide, rfl⟩

/-! ### C6 — `PdfService::generate_pdf` (src/services/pdf_service.rs 124–278)

The PDF service in the source tree drives a shared headless-Chromium browser
through chromiumoxide: `generate_pdf` opens a new tab, runs
`_generate_pdf_internal` (materialise the HTML — to a temp file only for
`size_category = "large"` —, navigate, wait, `Page::pdf`, delete the temp
file), and always closes the tab afterwards.  The embedding records the
sequence of external effects each call performs.  The effect vocabulary
includes `acquirePermit`, the semaphore acquisition the specification
describes, so that its absence from every trace is a statement about the
code rather than about the vocabulary. -/

/-- External effects a `generate_pdf` call can perform.  `acquirePermit` is
the spec's step 1 (take one permit of a fixed-size semaphore); the remaining
constructors are the calls the source actually makes. -/
inductive PdfEffect
  | acquirePermit
  | newPage
  | writeTempHtml
  | goto
  | waitForNavigation
  | printToPdf
  | removeTempHtml
  | closePage
deriving Repr, DecidableEq

/-- Errors of the embedded `generate_pdf`.  `busy` is the spec's permit-wait
timeout error; the other constructors carry the message the source builds in
the corresponding `map_err`/`context`. -/
inductive PdfError
  | busy
  | pageCreate (m : String)
  | ioTmp (m : String)
  | nav (m : String)
  | waitLoad (m : String)
  | render (m : String)
deriving Repr, DecidableEq

/-- Outcomes of the external calls made during one `generate_pdf` run:
creating the tab, writing the temp HTML file, `Page::goto`,
`Page::wait_for_navigation`, `Page::pdf`. -/
structure PdfEnv where
  new_page_result : Except String Unit
  write_file_result : Except String Unit
  goto_result : Except String Unit
  wait_result : Except String Unit
  print_result : Except String (List Nat)

/-- Embeds `PdfRequest` as consumed by `PdfService::generate_pdf` (the fields the
chromiumoxide implementation reads; page geometry and margins are passed
through to `PrintToPdfParams` and play no role in the claims). -/
structure PdfRequestChromium where
  html : String
  orientation : Option String
  size_category : Option String

/-- Embeds `PdfService::_generate_pdf_internal` (lines 157–278): choose `data:` URL
or temp file by `size_category`, navigate, wait, print, clean up the temp
file.  Returns the result together with the effect trace. -/
def generate_pdf_internal (env : PdfEnv) (req : PdfRequestChromium) :
    Except PdfError (List Nat) × List PdfEffect :=
  let size_category := req.size_category.getD "small"
  let tmpEffects : List PdfEffect :=
    if size_category = "large" then [PdfEffect.writeTempHtml] else []
  let tmpRes : Except PdfError Unit :=
    if size_category = "large" then
      match env.write_file_result with
      | Except.ok _ => Except.ok ()
      | Except.error m => Except.error (PdfError.ioTmp m)
    else Except.ok ()
  match tmpRes with
  | Except.error e => (Except.error e, tmpEffects)
  | Except.ok _ =>
    match env.goto_result with
    | Except.error m =>
        (Except.error (PdfError.nav ("Error al navegar al HTML (chromiumoxide): " ++ m)),
         tmpEffects ++ [PdfEffect.goto])
    | Except.ok _ =>
      match env.wait_result with
      | Except.error m =>
          (Except.error (PdfError.waitLoad ("Error esperando a que cargue la página: " ++ m)),
           tmpEffects ++ [PdfEffect.goto, PdfEffect.waitForNavigation])
      | Except.ok _ =>
        match env.print_result with
        | Except.error m =>
            (Except.error (PdfError.render ("Error generando PDF: " ++ m)),
             tmpEffects ++ [PdfEffect.goto, PdfEffect.waitForNavigation, PdfEffect.printToPdf])
        | Except.ok bytes =>
            (Except.ok bytes,
             tmpEffects ++ [PdfEffect.goto, PdfEffect.waitForNavigation, PdfEffect.printToPdf]
               ++ (if size_category = "large" then [PdfEffect.removeTempHtml] else []))

/-- Embeds `PdfService::generate_pdf` (lines 124–153): open a new tab, run the
internal logic, always close the tab afterwards. -/
def generate_pdf (env : PdfEnv) (req : PdfRequestChromium) :
    Except PdfError (List Nat) × List PdfEffect :=
  match env.new_page_result with
  | Except.error m =>
      (Except.error (PdfError.pageCreate ("No se pudo crear nueva página (tab): " ++ m)),
       [PdfEffect.newPage])
  | Except.ok _ =>
    let inner := generate_pdf_internal env req
    (inner.1, PdfEffect.newPage :: inner.2 ++ [PdfEffect.closePage])

/-- An environment where every external call succeeds, and a small request. -/
def pdfEnvAllOk : PdfEnv :=
  { new_page_result := Except.ok (), write_file_result := Except.ok (),
    goto_result := Except.ok (), wait_result := Except.ok (),
    print_result := Except.ok [37, 80, 68, 70] }

/-- A small PDF request (no `size_category`, so the `data:` URL path). -/
def pdfReqSmall : PdfRequestChromium :=
  { html := "<h1>hola</h1>", orientation := none, size_category := none }

/-- Counterexample to C6: the claim says every call to the PDF renderer
first acquires one permit from a fixed-size semaphore (default 8 permits,
5-second wait, `Busy` on timeout).  On a concrete successful call the full
effect trace is `newPage, goto, waitForNavigation, printToPdf, closePage`:
no permit is ever acquired — there is no semaphore in
`PdfService::generate_pdf` at all. -/
theorem generate_pdf_no_semaphore_counterexample :
    generate_pdf pdfEnvAllOk pdfReqSmall
      = (Except.ok [37, 80, 68, 70],
         [PdfEffect.newPage, PdfEffect.goto, PdfEffect.waitForNavigation,
          PdfEffect.printToPdf, PdfEffect.closePage])
    ∧ PdfEffect.acquirePermit ∉ (generate_pdf pdfEnvAllOk pdfReqSmall).2 := by
  refine ⟨rfl, ?_⟩
  decide

/-- C6 (amended) — `generate_pdf` performs no concurrency limiting: no call
ever acquires a semaphore permit, no call ever fails with `Busy`, every call
starts by opening a browser tab, and whenever the tab was opened it is closed
again on every exit path. -/
theorem generate_pdf_no_permit_no_busy (env : PdfEnv) (req : PdfRequestChromium) :
    PdfEffect.acquirePermit ∉ (generate_pdf env req).2
    ∧ (generate_pdf env req).1 ≠ Except.error PdfError.busy
    ∧ (generate_pdf env req).2.head? = some PdfEffect.newPage
    ∧ (PdfEffect.closePage ∈ (generate_pdf env req).2
        ∨ ∃ m, (generate_pdf env req).1 = Except.error (PdfError.pageCreate m)) := by
  unfold generate_pdf generate_pdf_internal
  cases env.new_page_result with
  | error m => exact ⟨by simp, by simp, rfl, Or.inr ⟨_, rfl⟩⟩
  | ok _ =>
    by_cases hl : req.size_category.getD "small" = "large" <;>
      cases hw : env.write_file_result <;>
      cases hg : env.goto_result <;>
      cases hv : env.wait_result <;>
      cases hp : env.print_result <;>
        simp [hl, hw, hg, hv, hp]

/-! ### C7 — `EmailService::send_email_via_smtp` (src/services/email_service.rs 199–241)

The message body is built with `SinglePart::plain(req.body.clone())` — a
`text/plain; charset=utf-8` part, not an HTML part — followed by one
`attachment`-dispositioned part per attachment whose `ContentType` is parsed
from the attachment's `content_type`, whose body is the raw bytes and whose
filename is preserved. -/

/-- An attachment (`src/models/email_model.rs`, `EmailAttachment`; `data` is
the decoded raw bytes). -/
structure EmailAttachmentE where
  filename : String
  content_type : String
  data : List Nat
deriving Repr, DecidableEq

/-- The fields of `SendEmailRequest` that `send_email_via_smtp` reads. -/
structure SendEmailRequestE where
  smtp_host : String
  smtp_port : Nat
  smtp_user : String
  smtp_pass : String
  recipient : String
  subject : String
  body : String
  attachments : Option (List EmailAttachmentE)
deriving Repr, DecidableEq

/-- Body of one MIME part: text or raw bytes. -/
inductive MimeBody
  | text (s : String)
  | bytes (b : List Nat)
deriving Repr, DecidableEq

/-- One MIME part of the built multipart/mixed message. -/
structure MimePart where
  content_type : String
  attachment_disposition : Bool
  filename : Option String
  part_body : MimeBody
deriving Repr, DecidableEq

/-- The parts of the MIME message `send_email_via_smtp` builds:
`MultiPart::mixed().singlepart(SinglePart::plain(body))` followed by one
attachment part per entry of `req.attachments`. -/
def send_email_via_smtp_parts (req : SendEmailRequestE) : List MimePart :=
  { content_type := "text/plain; charset=utf-8", attachment_disposition := false,
    filename := none, part_body := MimeBody.text req.body }
  :: (req.attachments.getD []).map (fun a =>
       { content_type := a.content_type, attachment_disposition := true,
         filename := some a.filename, part_body := MimeBody.bytes a.data })

/-- A concrete send request with one PDF attachment. -/
def emailReqW : SendEmailRequestE :=
  { smtp_host := "smtp.example.com", smtp_port := 587, smtp_user := "u@example.com",
    smtp_pass := "secret", recipient := "to@example.com", subject := "hello",
    body := "<h1>hola</h1>",
    attachments := some [{ filename := "document.pdf",
                           content_type := "application/pdf",
                           data := [37, 80, 68, 70] }] }

/-- Counterexample to C7: the claim says the built message contains an HTML
body part of content type `text/html; charset=utf-8`.  For a concrete request
no part of the built message has that content type: the body part is
`text/plain; charset=utf-8` (`SinglePart::plain`), and the only other part is
the `application/pdf` attachment. -/
theorem send_email_via_smtp_no_html_part_counterexample :
    ((send_email_via_smtp_parts emailReqW).all
        (fun p => p.content_type ≠ "text/html; charset=utf-8") = true)
    ∧ (send_email_via_smtp_parts emailReqW).head?.map (·.content_type)
        = some "text/plain; charset=utf-8" := by
  constructor
  · decide
  · rfl

/-- C7 (amended) — the message built by `send_email_via_smtp` consists of a
plain-text body part (`text/plain; charset=utf-8`, not HTML, carrying the
request body and no attachment disposition) followed by exactly one
`attachment`-dispositioned part per attachment, whose content type comes from
the attachment's `content_type`, whose body is the raw bytes, and whose
filename is preserved. -/
theorem send_email_via_smtp_parts_shape (req : SendEmailRequestE) :
    ((send_email_via_smtp_parts req).length = 1 + (req.attachments.getD []).length)
    ∧ ((send_email_via_smtp_parts req).head?.map (·.content_type)
        = some "text/plain; charset=utf-8")
    ∧ ((send_email_via_smtp_parts req).head?.map (·.attachment_disposition) = some false)
    ∧ ((send_email_via_smtp_parts req).head?.map (·.part_body)
        = some (MimeBody.text req.body))
    ∧ (∀ k : Nat,
        ((send_email_via_smtp_parts req)[k + 1]?.map (·.content_type)
            = ((req.attachments.getD [])[k]?).map (·.content_type))
        ∧ ((send_email_via_smtp_parts req)[k + 1]?.map (·.attachment_disposition)
            = ((req.attachments.getD [])[k]?).map (fun _ => true))
        ∧ ((send_email_via_smtp_parts req)[k + 1]?.map (·.filename)
            = ((req.attachments.getD [])[k]?).map (fun a => some a.filename))
        ∧ ((send_email_via_smtp_parts req)[k + 1]?.map (·.part_body)
            = ((req.attachments.getD [])[k]?).map (fun a => MimeBody.bytes a.data))) := by
  refine ⟨by simp [send_email_via_smtp_parts]; omega, rfl, rfl, rfl, ?_⟩
  intro k
  unfold send_email_via_smtp_parts
  rw [List.getElem?_cons_succ, List.getElem?_map]
  cases (req.attachments.getD [])[k]? <;> simp

/-! ## Dispatcher (src/services/notification_service.rs) and handler
(src/handlers/notification_handler.rs)

`anyhow` errors are a chain of messages, outermost context first.
`dbgFmt` is `format!("{:?}", e)` (the whole chain), `displayFmt` is
`format!("{}", e)` (the outermost message only). -/

/-- Embeds `format!("{:?}", e)` on an `anyhow` error chain. -/
def dbgFmt (e : List String) : String :=
  String.intercalate "\n\nCaused by:\n    " e

/-- Embeds `format!("{}", e)` on an `anyhow` error chain: the outermost message. -/
def displayFmt (e : List String) : String :=
  e.headD ""

/-- Embeds `EmailConfig` (src/models/notification_model.rs). -/
structure EmailConfigE where
  smtp_host : String
  smtp_port : Nat
  smtp_user : String
  smtp_pass : String
  recipients : List String
deriving Repr, DecidableEq

/-- Embeds `WhatsAppConfig` (src/models/notification_model.rs). -/
structure WhatsAppConfigE where
  recipients : List String
deriving Repr, DecidableEq

/-- Embeds `NotificationRequest` (src/models/notification_model.rs).  The PDF layout
fields (orientation, page size, margins, scale) are forwarded opaquely to the
PDF oracle call and do not influence any claim, so they are not repeated
here; `pdf_attachment_name` is kept because the dispatcher reads it. -/
structure NotificationRequestE where
  channels : List String
  email_config : Option EmailConfigE
  whatsapp_config : Option WhatsAppConfigE
  subject : Option String
  body : Option String
  async_send : Bool
  pdf_html : Option String
  pdf_attachment_name : Option String
  other_attachments : Option (List EmailAttachmentE)

/-- Outcomes of the external calls one dispatch can make, plus the UUID
draws.  `pdfGen` is the outcome of the (at most one) `PdfService::generate_pdf`
call; `emailSend i` / `whatsappSend i` the outcome of the sender invocation
for the channel at position `i` (for WhatsApp: of the whole
status-check/text/attachment HTTP exchange, after the env-var and config
checks which the dispatcher performs itself). -/
structure DispatchEnv where
  pdfGen : Except (List String) (List Nat)
  emailSend : Nat → Except (List String) Unit
  whatsappSend : Nat → Except (List String) Unit
  whatsappApiUrl : Option String
  whatsappSessionId : Option String
  chanIds : Nat → String
  opId : String

/-- Store write events, in the order the dispatcher issues them. -/
inductive DbEvent
  | opCreate (op_id : String)
  | opWrite (op_id status : String) (error : Option String)
  | chanCreate (channel_id op_id channel : String)
  | chanWrite (channel_id status : String) (error : Option String) (increment : Bool)
deriving Repr, DecidableEq

/-- Store state threaded through a dispatch: the two tables, the write
trace, and a logical clock advanced on every write that reads a wall clock. -/
structure DbState where
  ops : List OperationRow
  chans : List ChannelRow
  trace : List DbEvent
  time : Nat
deriving Repr

/-- Embeds `operation_service.update_operation_status` as a state step (reads no
clock). -/
def stOpStatus (st : DbState) (op_id status : String) (error : Option String) : DbState :=
  { st with ops := update_operation_status st.ops op_id status error,
            trace := st.trace ++ [DbEvent.opWrite op_id status error] }

/-- Embeds `operation_service.mark_operation_failed` as a state step
(`updated_at = CURRENT_TIMESTAMP`, so the clock advances). -/
def stMarkFailed (st : DbState) (op_id : String) (error : String) : DbState :=
  { st with ops := mark_operation_failed st.ops op_id error st.time,
            trace := st.trace ++ [DbEvent.opWrite op_id "failed" (some error)],
            time := st.time + 1 }

/-- Embeds `channel_service.update_channel_status` as a state step
(`updated_at = Utc::now()`). -/
def stChanWrite (st : DbState) (channel_id status : String) (error : Option String)
    (increment : Bool) : DbState :=
  { st with chans := update_channel_status st.chans channel_id status error increment st.time,
            trace := st.trace ++ [DbEvent.chanWrite channel_id status error increment],
            time := st.time + 1 }

/-- Embeds `channel_service.create_channel` as a state step. -/
def stChanCreate (st : DbState) (channel_id op_id channel initial_status : String) : DbState :=
  { st with chans := create_channel st.chans channel_id op_id channel initial_status st.time,
            trace := st.trace ++ [DbEvent.chanCreate channel_id op_id channel],
            time := st.time + 1 }

/-- Embeds `operation_service.create_operation` as a state step: inserts a `pending`
row with `created_at = updated_at = now`. -/
def stOpCreate (st : DbState) (op_id operation_type : String) (is_async : Bool)
    (metadata : Option String) : DbState :=
  { st with ops := st.ops ++ [{ id := op_id, operation_type := operation_type,
                                status := "pending", error_message := none,
                                is_async := is_async, created_at := st.time,
                                updated_at := st.time, metadata := metadata }],
            trace := st.trace ++ [DbEvent.opCreate op_id],
            time := st.time + 1 }

/-- Embeds `NotificationService::send_via_email` (lines 247–303): fails immediately
when `email_config` is missing, otherwise the outcome of
`email_service.send_unified` wrapped in the `context` message. -/
def send_via_email (env : DispatchEnv) (req : NotificationRequestE) (i : Nat) :
    Except (List String) Unit :=
  match req.email_config with
  | none => Except.error ["Falta email_config para canal email"]
  | some _ =>
    match env.emailSend i with
    | Except.ok _ => Except.ok ()
    | Except.error e => Except.error ("(send_via_email) Fallo en email_service" :: e)

/-- Embeds `NotificationService::send_via_whatsapp` (lines 305–484): fails on a
missing `WHATSAPP_API_URL` / `WHATSAPP_API_SESSION_ID` env var or missing
`whatsapp_config`, otherwise the outcome of the HTTP exchange (session
status check, texts, attachments). -/
def send_via_whatsapp (env : DispatchEnv) (req : NotificationRequestE) (i : Nat) :
    Except (List String) Unit :=
  match env.whatsappApiUrl with
  | none => Except.error ["No se definió WHATSAPP_API_URL"]
  | some _ =>
    match env.whatsappSessionId with
    | none => Except.error ["No se definió WHATSAPP_API_SESSION_ID"]
    | some _ =>
      match req.whatsapp_config with
      | none => Except.error ["No se proporcionó whatsapp_config"]
      | some _ => env.whatsappSend i

/-- The per-channel dispatch of `process_notification` step 4: `email` and
`whatsapp` go to their senders, any other tag is `Canal no soportado`. -/
def channelResult (env : DispatchEnv) (req : NotificationRequestE) (i : Nat)
    (name : String) : Except (List String) Unit :=
  if name = "email" then send_via_email env req i
  else if name = "whatsapp" then send_via_whatsapp env req i
  else Except.error ["Canal no soportado: " ++ name]

/-- The `(channel, channel_id)` pairs the creation loop collects, position
`i` onward. -/
def mkPairs (env : DispatchEnv) : Nat → List String → List (String × String)
  | _, [] => []
  | i, ch :: rest => (ch, env.chanIds i) :: mkPairs env (i + 1) rest

/-- The channel rows inserted by the creation loop: `pending`, `attempts = 0`,
`created_at = updated_at` = the clock at insertion. -/
def createdRows (env : DispatchEnv) (op_id : String) : Nat → Nat → List String → List ChannelRow
  | _, _, [] => []
  | i, t, ch :: rest =>
    { id := env.chanIds i, operation_id := op_id, channel := ch, status := "pending",
      error_message := none, created_at := t, updated_at := t, attempts := 0 }
    :: createdRows env op_id (i + 1) (t + 1) rest

/-- Trace of the creation loop. -/
def createEvents (env : DispatchEnv) (op_id : String) : Nat → List String → List DbEvent
  | _, [] => []
  | i, ch :: rest => DbEvent.chanCreate (env.chanIds i) op_id ch :: createEvents env op_id (i + 1) rest

/-- Embeds `process_notification` step 3/4: one `create_channel` per requested
channel, collecting `(channel, channel_id)` pairs in input order. -/
def createChannels (env : DispatchEnv) (op_id : String) :
    Nat → List String → DbState → List (String × String) × DbState
  | _, [], st => ([], st)
  | i, ch :: rest, st =>
    let cid := env.chanIds i
    let st1 := stChanCreate st cid op_id ch "pending"
    let res := createChannels env op_id (i + 1) rest st1
    ((ch, cid) :: res.1, res.2)

/-- One iteration of `process_notification` step 4: set the attempt to
`running` (no increment), invoke the sender, then either `done` (no
increment) or `failed` with the Debug-formatted error and an attempts bump,
in which case the operation is also set to `failed` with the same text. -/
def processOne (env : DispatchEnv) (req : NotificationRequestE) (op_id : String)
    (i : Nat) (name cid : String) (st : DbState) : DbState :=
  let st1 := stChanWrite st cid "running" none false
  match channelResult env req i name with
  | Except.ok _ => stChanWrite st1 cid "done" none false
  | Except.error e =>
    let txt := dbgFmt e
    stOpStatus (stChanWrite st1 cid "failed" (some txt) true) op_id "failed" (some txt)

/-- The channel-processing loop of `process_notification` step 4, in input
order; one channel's failure does not stop the loop. -/
def processChannels (env : DispatchEnv) (req : NotificationRequestE) (op_id : String) :
    Nat → List (String × String) → DbState → DbState
  | _, [], st => st
  | i, p :: rest, st =>
    processChannels env req op_id (i + 1) rest (processOne env req op_id i p.1 p.2 st)

/-- Embeds `process_notification` step 2: when `pdf_html` is present, call the PDF
service; on success the generated bytes become the first attachment (MIME
`application/pdf`, filename `pdf_attachment_name` or `document.pdf`); on
failure the error is wrapped in the `context` message and propagated. -/
def pdfStep (env : DispatchEnv) (req : NotificationRequestE) :
    Except (List String) (List EmailAttachmentE) :=
  match req.pdf_html with
  | none => Except.ok []
  | some _ =>
    match env.pdfGen with
    | Except.ok bytes =>
        Except.ok [{ filename := req.pdf_attachment_name.getD "document.pdf",
                     content_type := "application/pdf", data := bytes }]
    | Except.error e => Except.error ("Error generando PDF con pdf_service" :: e)

/-- Embeds `NotificationService::process_notification` (lines 46–208):
1. operation → `running`; 2. optional PDF (failure propagates, nothing else
has happened yet beyond the `running` write); 3. assemble attachments;
4. create one `pending` channel row per requested channel; 5. process each
channel in order; 6. re-read the operation's channel rows and set the
operation to `done` iff all of them are `done`. -/
def process_notification (env : DispatchEnv) (st : DbState) (op_id : String)
    (req : NotificationRequestE) : Except (List String) Unit × DbState :=
  let st1 := stOpStatus st op_id "running" none
  match pdfStep env req with
  | Except.error e => (Except.error e, st1)
  | Except.ok _pdfAtts =>
    let created := createChannels env op_id 0 req.channels st1
    let st3 := processChannels env req op_id 0 created.1 created.2
    let opChannels := list_channels_for_operation st3.chans op_id
    let all_done := opChannels.all (fun ch => ch.status == "done")
    let st4 := if all_done then stOpStatus st3 op_id "done" none else st3
    (Except.ok (), st4)

/-- The metadata JSON string the notification handler stores on the
operation (serde_json field order as written in the source). -/
def notificationMetadata (req : NotificationRequestE) : String :=
  "\x7b\"channels\":["
    ++ String.intercalate "," (req.channels.map (fun c => "\"" ++ c ++ "\""))
    ++ "],\"pdf_planned\":" ++ (cond req.pdf_html.isSome "true" "false")
    ++ ",\"has_attachments\":"
    ++ toString ((req.other_attachments.map List.length).getD 0)
    ++ "\x7d"

/-- The HTTP response of the notification endpoint: status code, `success`
flag and the operation id it reports. -/
structure NotificationHttpResponse where
  status : Nat
  success : Bool
  operation_id : String
deriving Repr, DecidableEq

/-- The state right after the handler has created the operation row. -/
def handlerCreateOp (env : DispatchEnv) (st : DbState) (req : NotificationRequestE) : DbState :=
  stOpCreate st env.opId "send_notification" req.async_send (some (notificationMetadata req))

/-- Embeds `send_unified_notification_endpoint` (src/handlers/notification_handler.rs
13–89): create the operation; for `async_send` spawn the dispatch detached
and answer `200` immediately (the spawned task marks the operation failed if
`process_notification` returns an error); otherwise run the dispatch inline
and map its `Result` — `Ok` to `200`, `Err` to `mark_operation_failed` plus
`500`.  The detached task is modelled by running it to completion after the
response (which does not depend on it) is fixed. -/
def send_unified_notification_endpoint (env : DispatchEnv) (st : DbState)
    (req : NotificationRequestE) : NotificationHttpResponse × DbState :=
  let st1 := handlerCreateOp env st req
  if req.async_send then
    let run := process_notification env st1 env.opId req
    let st2 :=
      match run.1 with
      | Except.ok _ => run.2
      | Except.error e =>
          stMarkFailed run.2 env.opId ("Async task error: " ++ dbgFmt e)
    ({ status := 200, success := true, operation_id := env.opId }, st2)
  else
    match process_notification env st1 env.opId req with
    | (Except.ok _, st2) =>
        ({ status := 200, success := true, operation_id := env.opId }, st2)
    | (Except.error e, st2) =>
        let st3 := stMarkFailed st2 env.opId ("Send failed: " ++ displayFmt e)
        ({ status := 500, success := false, operation_id := env.opId }, st3)

/-! ### Loop characterisation lemmas

Every store `UPDATE` is a `List.map`, so the channel-processing loop acts on
the channel table as a composition of row transformers; the lemmas below
compute that composition pointwise. -/

/-- Row transformer of one loop iteration on the channel table. -/
def iterChanF (env : DispatchEnv) (req : NotificationRequestE) (i : Nat)
    (name cid : String) (t : Nat) (r : ChannelRow) : ChannelRow :=
  let r1 := applyChanUpd cid "running" none false t r
  match channelResult env req i name with
  | Except.ok _ => applyChanUpd cid "done" none false (t + 1) r1
  | Except.error e => applyChanUpd cid "failed" (some (dbgFmt e)) true (t + 1) r1

/-- The terminal shape of a channel row after its own iteration: `done`
untouched attempts on success, `failed` with the Debug-formatted error and
one attempts bump on failure. -/
def terminalChanRow (r : ChannelRow) (res : Except (List String) Unit) (t : Nat) :
    ChannelRow :=
  match res with
  | Except.ok _ => { r with status := "done", error_message := none, updated_at := t }
  | Except.error e =>
      { r with status := "failed", error_message := some (dbgFmt e), updated_at := t,
               attempts := r.attempts + 1 }

/-- Trace of one loop iteration. -/
def iterEvents (env : DispatchEnv) (req : NotificationRequestE) (op_id : String)
    (i : Nat) (name cid : String) : List DbEvent :=
  DbEvent.chanWrite cid "running" none false ::
  (match channelResult env req i name with
   | Except.ok _ => [DbEvent.chanWrite cid "done" none false]
   | Except.error e =>
       [DbEvent.chanWrite cid "failed" (some (dbgFmt e)) true,
        DbEvent.opWrite op_id "failed" (some (dbgFmt e))])

/-- Cumulative channel-table transformer of the loop from position `i`,
clock `t`. -/
def chansLoopF (env : DispatchEnv) (req : NotificationRequestE) :
    Nat → Nat → List (String × String) → ChannelRow → ChannelRow
  | _, _, [], r => r
  | i, t, p :: rest, r =>
    chansLoopF env req (i + 1) (t + 2) rest (iterChanF env req i p.1 p.2 t r)

/-- Cumulative operation-table transformer of the loop. -/
def opsLoopF (env : DispatchEnv) (req : NotificationRequestE) (op_id : String) :
    Nat → List (String × String) → OperationRow → OperationRow
  | _, [], r => r
  | i, p :: rest, r =>
    opsLoopF env req op_id (i + 1) rest
      (match channelResult env req i p.1 with
       | Except.ok _ => r
       | Except.error e => applyOpStatusUpd op_id "failed" (some (dbgFmt e)) r)

/-- The `(status, error_message)` evolution of the operation row over the
loop: unchanged on channel success, overwritten with
`("failed", Debug-formatted error)` on each channel failure — the last
failure wins. -/
def opFold (env : DispatchEnv) (req : NotificationRequestE) :
    Nat → List (String × String) → String × Option String → String × Option String
  | _, [], acc => acc
  | i, p :: rest, acc =>
    opFold env req (i + 1) rest
      (match channelResult env req i p.1 with
       | Except.ok _ => acc
       | Except.error e => ("failed", some (dbgFmt e)))

/-- Trace of the whole loop. -/
def loopEvents (env : DispatchEnv) (req : NotificationRequestE) (op_id : String) :
    Nat → List (String × String) → List DbEvent
  | _, [] => []
  | i, p :: rest =>
    iterEvents env req op_id i p.1 p.2 ++ loopEvents env req op_id (i + 1) rest

theorem processOne_chans (env : DispatchEnv) (req : NotificationRequestE)
    (op_id : String) (i : Nat) (name cid : String) (st : DbState) :
    (processOne env req op_id i name cid st).chans
      = st.chans.map (iterChanF env req i name cid st.time) := by
  unfold processOne iterChanF stChanWrite stOpStatus update_channel_status
  cases channelResult env req i name <;>
    simp [List.map_map, Function.comp]

theorem processOne_ops (env : DispatchEnv) (req : NotificationRequestE)
    (op_id : String) (i : Nat) (name cid : String) (st : DbState) :
    (processOne env req op_id i name cid st).ops
      = match channelResult env req i name with
        | Except.ok _ => st.ops
        | Except.error e => update_operation_status st.ops op_id "failed" (some (dbgFmt e)) := by
  unfold processOne stChanWrite stOpStatus
  cases channelResult env req i name <;> rfl

theorem processOne_time (env : DispatchEnv) (req : NotificationRequestE)
    (op_id : String) (i : Nat) (name cid : String) (st : DbState) :
    (processOne env req op_id i name cid st).time = st.time + 2 := by
  unfold processOne stChanWrite stOpStatus
  cases channelResult env req i name <;> rfl

theorem processOne_trace (env : DispatchEnv) (req : NotificationRequestE)
    (op_id : String) (i : Nat) (name cid : String) (st : DbState) :
    (processOne env req op_id i name cid st).trace
      = st.trace ++ iterEvents env req op_id i name cid := by
  unfold processOne iterEvents stChanWrite stOpStatus
  cases channelResult env req i name <;> simp

theorem processChannels_chans (env : DispatchEnv) (req : NotificationRequestE)
    (op_id : String) (pairs : List (String × String)) :
    ∀ (i : Nat) (st : DbState),
      (processChannels env req op_id i pairs st).chans
        = st.chans.map (chansLoopF env req i st.time pairs) := by
  induction pairs with
  | nil =>
    intro i st
    have h : chansLoopF env req i st.time [] = id := funext fun r => rfl
    simp [processChannels, h]
  | cons p rest ih =>
    intro i st
    have h1 := ih (i + 1) (processOne env req op_id i p.1 p.2 st)
    rw [processChannels, h1, processOne_chans, processOne_time, List.map_map]
    exact List.map_congr_left (fun r _ => rfl)

theorem processChannels_ops (env : DispatchEnv) (req : NotificationRequestE)
    (op_id : String) (pairs : List (String × String)) :
    ∀ (i : Nat) (st : DbState),
      (processChannels env req op_id i pairs st).ops
        = st.ops.map (opsLoopF env req op_id i pairs) := by
  induction pairs with
  | nil =>
    intro i st
    have h : opsLoopF env req op_id i [] = id := funext fun r => rfl
    simp [processChannels, h]
  | cons p rest ih =>
    intro i st
    have h1 := ih (i + 1) (processOne env req op_id i p.1 p.2 st)
    rw [processChannels, h1, processOne_ops]
    cases hres : channelResult env req i p.1 with
    | ok u =>
      exact List.map_congr_left (fun r _ => by simp [opsLoopF, hres])
    | error e =>
      unfold update_operation_status
      rw [List.map_map]
      exact List.map_congr_left (fun r _ => by simp [opsLoopF, hres, Function.comp])

theorem processChannels_trace (env : DispatchEnv) (req : NotificationRequestE)
    (op_id : String) (pairs : List (String × String)) :
    ∀ (i : Nat) (st : DbState),
      (processChannels env req op_id i pairs st).trace
        = st.trace ++ loopEvents env req op_id i pairs := by
  induction pairs with
  | nil => intro i st; simp [processChannels, loopEvents]
  | cons p rest ih =>
    intro i st
    rw [processChannels, ih (i + 1), processOne_trace, loopEvents, List.append_assoc]

theorem iterChanF_id_preserved (env : DispatchEnv) (req : NotificationRequestE)
    (i : Nat) (name cid : String) (t : Nat) (r : ChannelRow) :
    (iterChanF env req i name cid t r).id = r.id := by
  unfold iterChanF
  cases channelResult env req i name <;> simp [applyChanUpd_id]

theorem iterChanF_of_ne (env : DispatchEnv) (req : NotificationRequestE)
    (i : Nat) (name cid : String) (t : Nat) (r : ChannelRow) (h : r.id ≠ cid) :
    iterChanF env req i name cid t r = r := by
  unfold iterChanF
  cases channelResult env req i name <;> simp [applyChanUpd, h]

theorem iterChanF_of_eq (env : DispatchEnv) (req : NotificationRequestE)
    (i : Nat) (name cid : String) (t : Nat) (r : ChannelRow) (h : r.id = cid) :
    iterChanF env req i name cid t r
      = terminalChanRow r (channelResult env req i name) (t + 1) := by
  unfold iterChanF terminalChanRow
  cases channelResult env req i name <;> simp [applyChanUpd, h]

theorem terminalChanRow_id (r : ChannelRow) (res : Except (List String) Unit) (t : Nat) :
    (terminalChanRow r res t).id = r.id := by
  unfold terminalChanRow
  cases res <;> rfl

theorem terminalChanRow_operation_id (r : ChannelRow) (res : Except (List String) Unit)
    (t : Nat) : (terminalChanRow r res t).operation_id = r.operation_id := by
  unfold terminalChanRow
  cases res <;> rfl

theorem terminalChanRow_status (r : ChannelRow) (res : Except (List String) Unit) (t : Nat) :
    (terminalChanRow r res t).status
      = match res with | Except.ok _ => "done" | Except.error _ => "failed" := by
  unfold terminalChanRow
  cases res <;> rfl

theorem chansLoopF_id_preserved (env : DispatchEnv) (req : NotificationRequestE)
    (pairs : List (String × String)) :
    ∀ (i t : Nat) (r : ChannelRow), (chansLoopF env req i t pairs r).id = r.id := by
  induction pairs with
  | nil => intro i t r; rfl
  | cons p rest ih =>
    intro i t r
    rw [chansLoopF, ih, iterChanF_id_preserved]

theorem chansLoopF_operation_id (env : DispatchEnv) (req : NotificationRequestE)
    (pairs : List (String × String)) :
    ∀ (i t : Nat) (r : ChannelRow),
      (chansLoopF env req i t pairs r).operation_id = r.operation_id := by
  induction pairs with
  | nil => intro i t r; rfl
  | cons p rest ih =>
    intro i t r
    rw [chansLoopF, ih]
    unfold iterChanF
    cases channelResult env req i p.1 <;> simp [applyChanUpd] <;> split <;> rfl

theorem chansLoopF_of_not_mem (env : DispatchEnv) (req : NotificationRequestE)
    (pairs : List (String × String)) :
    ∀ (i t : Nat) (r : ChannelRow), r.id ∉ pairs.map Prod.snd →
      chansLoopF env req i t pairs r = r := by
  induction pairs with
  | nil => intro i t r _; rfl
  | cons p rest ih =>
    intro i t r h
    rw [List.map_cons, List.mem_cons] at h
    push_neg at h
    rw [chansLoopF, iterChanF_of_ne _ _ _ _ _ _ _ h.1, ih _ _ _ h.2]

theorem chansLoopF_at (env : DispatchEnv) (req : NotificationRequestE)
    (pairs : List (String × String)) :
    ∀ (i t k : Nat) (name cid : String) (r : ChannelRow),
      (pairs.map Prod.snd).Nodup → pairs[k]? = some (name, cid) → r.id = cid →
      chansLoopF env req i t pairs r
        = terminalChanRow r (channelResult env req (i + k) name) (t + 2 * k + 1) := by
  induction pairs with
  | nil => intro i t k name cid r _ hk; simp at hk
  | cons p rest ih =>
    intro i t k name cid r hnd hk hid
    rw [List.map_cons, List.nodup_cons] at hnd
    cases k with
    | zero =>
      rw [List.getElem?_cons_zero, Option.some_inj] at hk
      subst hk
      rw [chansLoopF, iterChanF_of_eq _ _ _ _ _ _ _ hid, chansLoopF_of_not_mem]
      · have h0 : i + 0 = i := by omega
        have h1 : t + 2 * 0 + 1 = t + 1 := by omega
        rw [h0, h1]
      · rw [terminalChanRow_id, hid]
        exact fun hmem => hnd.1 hmem
    | succ k' =>
      rw [List.getElem?_cons_succ] at hk
      have hmem : cid ∈ rest.map Prod.snd := by
        rw [List.mem_iff_getElem?]
        exact ⟨k', by rw [List.getElem?_map, hk]; rfl⟩
      have hne : r.id ≠ p.2 := by
        rw [hid]
        intro he
        exact hnd.1 (he ▸ hmem)
      rw [chansLoopF, iterChanF_of_ne _ _ _ _ _ _ _ hne,
          ih (i + 1) (t + 2) k' name cid r hnd.2 hk hid]
      have h1 : i + 1 + k' = i + (k' + 1) := by omega
      have h2 : t + 2 + 2 * k' + 1 = t + 2 * (k' + 1) + 1 := by omega
      rw [h1, h2]

theorem applyOpStatusUpd_id (operation_id status : String) (error : Option String)
    (r : OperationRow) : (applyOpStatusUpd operation_id status error r).id = r.id := by
  unfold applyOpStatusUpd
  split <;> rfl

theorem opsLoopF_id_preserved (env : DispatchEnv) (req : NotificationRequestE)
    (op_id : String) (pairs : List (String × String)) :
    ∀ (i : Nat) (r : OperationRow), (opsLoopF env req op_id i pairs r).id = r.id := by
  induction pairs with
  | nil => intro i r; rfl
  | cons p rest ih =>
    intro i r
    rw [opsLoopF, ih]
    cases channelResult env req i p.1 <;> simp [applyOpStatusUpd_id]

theorem opsLoopF_of_eq (env : DispatchEnv) (req : NotificationRequestE)
    (op_id : String) (pairs : List (String × String)) :
    ∀ (i : Nat) (r : OperationRow), r.id = op_id →
      opsLoopF env req op_id i pairs r
        = { r with
            status := (opFold env req i pairs (r.status, r.error_message)).1,
            error_message := (opFold env req i pairs (r.status, r.error_message)).2 } := by
  induction pairs with
  | nil => intro i r _; rfl
  | cons p rest ih =>
    intro i r hid
    rw [opsLoopF, opFold]
    cases channelResult env req i p.1 with
    | ok u => exact ih (i + 1) r hid
    | error e =>
      rw [ih (i + 1) _ (by rw [applyOpStatusUpd_id]; exact hid)]
      simp [applyOpStatusUpd, hid]

theorem opsLoopF_of_ne (env : DispatchEnv) (req : NotificationRequestE)
    (op_id : String) (pairs : List (String × String)) :
    ∀ (i : Nat) (r : OperationRow), r.id ≠ op_id →
      opsLoopF env req op_id i pairs r = r := by
  induction pairs with
  | nil => intro i r _; rfl
  | cons p rest ih =>
    intro i r hid
    rw [opsLoopF]
    cases channelResult env req i p.1 with
    | ok u => exact ih (i + 1) r hid
    | error e =>
      simp only [applyOpStatusUpd, if_neg hid]
      exact ih (i + 1) r hid

theorem opFold_of_allOk (env : DispatchEnv) (req : NotificationRequestE)
    (pairs : List (String × String)) :
    ∀ (i : Nat) (acc : String × Option String),
      (∀ k name cid, pairs[k]? = some (name, cid) →
        ∃ u, channelResult env req (i + k) name = Except.ok u) →
      opFold env req i pairs acc = acc := by
  induction pairs with
  | nil => intro i acc _; rfl
  | cons p rest ih =>
    intro i acc hok
    obtain ⟨u, hu⟩ := hok 0 p.1 p.2 (by simp)
    rw [opFold]
    rw [Nat.add_zero] at hu
    rw [hu]
    refine ih (i + 1) acc (fun k name cid hk => ?_)
    have := hok (k + 1) name cid (by rwa [List.getElem?_cons_succ])
    rwa [(by omega : i + (k + 1) = i + 1 + k)] at this

theorem opFold_failed_stays (env : DispatchEnv) (req : NotificationRequestE)
    (pairs : List (String × String)) :
    ∀ (i : Nat) (acc : String × Option String), acc.1 = "failed" →
      (opFold env req i pairs acc).1 = "failed" := by
  induction pairs with
  | nil => intro i acc h; exact h
  | cons p rest ih =>
    intro i acc h
    rw [opFold]
    cases channelResult env req i p.1 with
    | ok u => exact ih (i + 1) acc h
    | error e => exact ih (i + 1) _ rfl

theorem opFold_fail_of_exists (env : DispatchEnv) (req : NotificationRequestE)
    (pairs : List (String × String)) :
    ∀ (i k : Nat) (name cid : String) (e : List String) (acc : String × Option String),
      pairs[k]? = some (name, cid) → channelResult env req (i + k) name = Except.error e →
      (opFold env req i pairs acc).1 = "failed" := by
  induction pairs with
  | nil => intro i k name cid e acc hk _; simp at hk
  | cons p rest ih =>
    intro i k name cid e acc hk herr
    cases k with
    | zero =>
      rw [List.getElem?_cons_zero, Option.some_inj] at hk
      subst hk
      rw [Nat.add_zero] at herr
      rw [opFold]
      have hfst : ((name, cid) : String × String).1 = name := rfl
      rw [hfst, herr]
      exact opFold_failed_stays env req rest (i + 1) _ rfl
    | succ k' =>
      rw [List.getElem?_cons_succ] at hk
      rw [opFold]
      cases channelResult env req i p.1 with
      | ok u =>
        exact ih (i + 1) k' name cid e acc hk
          (by rwa [(by omega : i + 1 + k' = i + (k' + 1))])
      | error e2 =>
        exact ih (i + 1) k' name cid e _ hk
          (by rwa [(by omega : i + 1 + k' = i + (k' + 1))])

theorem mkPairs_getElem? (env : DispatchEnv) (chs : List String) :
    ∀ (i k : Nat),
      (mkPairs env i chs)[k]? = (chs[k]?).map (fun ch => (ch, env.chanIds (i + k))) := by
  induction chs with
  | nil => intro i k; simp [mkPairs]
  | cons ch rest ih =>
    intro i k
    cases k with
    | zero => simp [mkPairs]
    | succ k' =>
      rw [mkPairs, List.getElem?_cons_succ, List.getElem?_cons_succ, ih (i + 1) k',
          (by omega : i + 1 + k' = i + (k' + 1))]

theorem mkPairs_snd_nodup (env : DispatchEnv) (chs : List String) :
    ∀ (i : Nat),
      (∀ k l, k < chs.length → l < chs.length → k ≠ l →
        env.chanIds (i + k) ≠ env.chanIds (i + l)) →
      ((mkPairs env i chs).map Prod.snd).Nodup := by
  induction chs with
  | nil => intro i _; simp [mkPairs]
  | cons ch rest ih =>
    intro i hinj
    rw [mkPairs, List.map_cons, List.nodup_cons]
    constructor
    · intro hmem
      rw [List.mem_iff_getElem?] at hmem
      obtain ⟨k, hk⟩ := hmem
      rw [List.getElem?_map, mkPairs_getElem?] at hk
      cases hck : rest[k]? with
      | none => rw [hck] at hk; simp at hk
      | some c =>
        rw [hck] at hk
        simp only [Option.map_map, Option.map_some'] at hk
        have hklen : k < rest.length := by
          by_contra hge
          rw [List.getElem?_eq_none (by omega)] at hck
          exact Option.noConfusion hck
        have heq : env.chanIds (i + 1 + k) = env.chanIds i := by simpa using hk
        have h2 := hinj 0 (k + 1) (by simp) (by simp; omega) (by omega)
        rw [Nat.add_zero, (by omega : i + (k + 1) = i + 1 + k)] at h2
        exact h2 heq.symm
    · refine ih (i + 1) (fun k l hkl hll hne => ?_)
      have := hinj (k + 1) (l + 1) (by simp; omega) (by simp; omega) (by omega)
      rwa [(by omega : i + (k + 1) = i + 1 + k), (by omega : i + (l + 1) = i + 1 + l)] at this

theorem createdRows_getElem? (env : DispatchEnv) (op_id : String) (chs : List String) :
    ∀ (i t k : Nat),
      (createdRows env op_id i t chs)[k]?
        = (chs[k]?).map (fun ch =>
            { id := env.chanIds (i + k), operation_id := op_id, channel := ch,
              status := "pending", error_message := none, created_at := t + k,
              updated_at := t + k, attempts := 0 }) := by
  induction chs with
  | nil => intro i t k; simp [createdRows]
  | cons ch rest ih =>
    intro i t k
    cases k with
    | zero => simp [createdRows]
    | succ k' =>
      rw [createdRows, List.getElem?_cons_succ, List.getElem?_cons_succ, ih (i + 1) (t + 1) k',
          (by omega : i + 1 + k' = i + (k' + 1)), (by omega : t + 1 + k' = t + (k' + 1))]

theorem mem_createdRows (env : DispatchEnv) (op_id : String) (chs : List String) :
    ∀ (i t : Nat) (r : ChannelRow), r ∈ createdRows env op_id i t chs →
      r.operation_id = op_id ∧ ∃ k name, chs[k]? = some name ∧ r.id = env.chanIds (i + k)
        ∧ r.channel = name ∧ r.status = "pending" ∧ r.attempts = 0 := by
  induction chs with
  | nil => intro i t r h; simp [createdRows] at h
  | cons ch rest ih =>
    intro i t r h
    rw [createdRows, List.mem_cons] at h
    cases h with
    | inl he =>
      subst he
      exact ⟨rfl, 0, ch, by simp, by rw [Nat.add_zero], rfl, rfl, rfl⟩
    | inr hm =>
      obtain ⟨hop, k, name, hk, hid, hch, hst, hat⟩ := ih (i + 1) (t + 1) r hm
      exact ⟨hop, k + 1, name, by rwa [List.getElem?_cons_succ],
        by rwa [(by omega : i + (k + 1) = i + 1 + k)], hch, hst, hat⟩

theorem find?_createdRows (env : DispatchEnv) (op_id : String) (chs : List String) :
    ∀ (i t k : Nat) (name : String),
      (∀ a b, a < chs.length → b < chs.length → a ≠ b →
        env.chanIds (i + a) ≠ env.chanIds (i + b)) →
      chs[k]? = some name →
      (createdRows env op_id i t chs).find? (fun r => r.id == env.chanIds (i + k))
        = some { id := env.chanIds (i + k), operation_id := op_id, channel := name,
                 status := "pending", error_message := none, created_at := t + k,
                 updated_at := t + k, attempts := 0 } := by
  induction chs with
  | nil => intro i t k name _ hk; simp at hk
  | cons ch rest ih =>
    intro i t k name hinj hk
    cases k with
    | zero =>
      rw [List.getElem?_cons_zero, Option.some_inj] at hk
      subst hk
      rw [createdRows, Nat.add_zero]
      exact List.find?_cons_of_pos _ (by simp)
    | succ k' =>
      rw [List.getElem?_cons_succ] at hk
      have hklen : k' < rest.length := by
        by_contra hge
        rw [List.getElem?_eq_none (by omega)] at hk
        exact Option.noConfusion hk
      have hne : env.chanIds i ≠ env.chanIds (i + (k' + 1)) := by
        have := hinj 0 (k' + 1) (by simp) (by simp; omega) (by omega)
        rwa [Nat.add_zero] at this
      rw [createdRows, List.find?_cons_of_neg _ (by simpa using fun h => hne h)]
      have := ih (i + 1) (t + 1) k' name
        (fun a b ha hb hab => by
          have := hinj (a + 1) (b + 1) (by simp; omega) (by simp; omega) (by omega)
          rwa [(by omega : i + (a + 1) = i + 1 + a),
               (by omega : i + (b + 1) = i + 1 + b)] at this)
        hk
      rwa [(by omega : i + 1 + k' = i + (k' + 1)), (by omega : t + 1 + k' = t + (k' + 1))]
        at this

theorem createChannels_spec (env : DispatchEnv) (op_id : String) (chs : List String) :
    ∀ (i : Nat) (st : DbState),
      createChannels env op_id i chs st
        = (mkPairs env i chs,
           { ops := st.ops,
             chans := st.chans ++ createdRows env op_id i st.time chs,
             trace := st.trace ++ createEvents env op_id i chs,
             time := st.time + chs.length }) := by
  induction chs with
  | nil =>
    intro i st
    simp only [createChannels, mkPairs, createdRows, createEvents, List.append_nil,
      List.length_nil, Nat.add_zero]
  | cons ch rest ih =>
    intro i st
    obtain ⟨ops, chans, trace, time⟩ := st
    rw [createChannels]
    simp only [ih (i + 1), stChanCreate, create_channel]
    rw [mkPairs, createdRows, createEvents, Prod.mk.injEq]
    refine ⟨rfl, ?_⟩
    rw [DbState.mk.injEq]
    refine ⟨rfl, ?_, ?_, by simp; omega⟩
    · simp [List.append_assoc]
    · simp [List.append_assoc]

/-! ### Run-level characterisation of `process_notification` -/

/-- Pairwise-distinct UUID draws for the first `n` channel creations. -/
def ChanIdsInj (env : DispatchEnv) (n : Nat) : Prop :=
  ∀ k l, k < n → l < n → k ≠ l → env.chanIds k ≠ env.chanIds l

/-- The first `n` UUID draws collide with no pre-existing channel row. -/
def ChanIdsFresh (env : DispatchEnv) (st : DbState) (n : Nat) : Prop :=
  ∀ k, k < n → ∀ r ∈ st.chans, r.id ≠ env.chanIds k

/-- No pre-existing channel row belongs to the operation being dispatched. -/
def NoPriorChannels (st : DbState) (op_id : String) : Prop :=
  ∀ r ∈ st.chans, r.operation_id ≠ op_id

/-- Every requested channel's sender invocation succeeds. -/
def allChannelsOk (env : DispatchEnv) (req : NotificationRequestE) : Prop :=
  ∀ k name, req.channels[k]? = some name → ∃ u, channelResult env req k name = Except.ok u

/-- The channel table after a completed dispatch. -/
def runChanTable (env : DispatchEnv) (st0 : DbState) (op_id : String)
    (req : NotificationRequestE) : List ChannelRow :=
  (st0.chans ++ createdRows env op_id 0 st0.time req.channels).map
    (chansLoopF env req 0 (st0.time + req.channels.length) (mkPairs env 0 req.channels))

/-- The operation table after the loop (before the final all-done write). -/
def runOpTableLoop (env : DispatchEnv) (st0 : DbState) (op_id : String)
    (req : NotificationRequestE) : List OperationRow :=
  (update_operation_status st0.ops op_id "running" none).map
    (opsLoopF env req op_id 0 (mkPairs env 0 req.channels))

/-- The final all-done test of `process_notification` step 6. -/
def runAllDoneB (env : DispatchEnv) (st0 : DbState) (op_id : String)
    (req : NotificationRequestE) : Bool :=
  (list_channels_for_operation (runChanTable env st0 op_id req) op_id).all
    (fun ch => ch.status == "done")

theorem process_notification_ok (env : DispatchEnv) (st0 : DbState) (op_id : String)
    (req : NotificationRequestE) (atts : List EmailAttachmentE)
    (hpdf : pdfStep env req = Except.ok atts) :
    process_notification env st0 op_id req
      = (Except.ok (),
         if runAllDoneB env st0 op_id req
         then stOpStatus
                (processChannels env req op_id 0 (mkPairs env 0 req.channels)
                  ((createChannels env op_id 0 req.channels
                    (stOpStatus st0 op_id "running" none)).2))
                op_id "done" none
         else processChannels env req op_id 0 (mkPairs env 0 req.channels)
                ((createChannels env op_id 0 req.channels
                  (stOpStatus st0 op_id "running" none)).2)) := by
  have hc := createChannels_spec env op_id req.channels 0 (stOpStatus st0 op_id "running" none)
  have hchans : (processChannels env req op_id 0 (mkPairs env 0 req.channels)
      { ops := (stOpStatus st0 op_id "running" none).ops,
        chans := (stOpStatus st0 op_id "running" none).chans
          ++ createdRows env op_id 0 (stOpStatus st0 op_id "running" none).time req.channels,
        trace := (stOpStatus st0 op_id "running" none).trace
          ++ createEvents env op_id 0 req.channels,
        time := (stOpStatus st0 op_id "running" none).time + req.channels.length }).chans
      = runChanTable env st0 op_id req := by
    rw [processChannels_chans]
    unfold runChanTable stOpStatus
    rfl
  unfold process_notification
  rw [hpdf]
  simp only [hc]
  unfold runAllDoneB
  rw [← hchans]

theorem run_final_chans (env : DispatchEnv) (st0 : DbState) (op_id : String)
    (req : NotificationRequestE) (atts : List EmailAttachmentE)
    (hpdf : pdfStep env req = Except.ok atts) :
    (process_notification env st0 op_id req).2.chans = runChanTable env st0 op_id req := by
  rw [process_notification_ok env st0 op_id req atts hpdf]
  have hc := createChannels_spec env op_id req.channels 0 (stOpStatus st0 op_id "running" none)
  simp only [stOpStatus] at hc
  split <;>
  · simp only [stOpStatus, hc, processChannels_chans]
    unfold runChanTable
    rfl

theorem run_final_ops (env : DispatchEnv) (st0 : DbState) (op_id : String)
    (req : NotificationRequestE) (atts : List EmailAttachmentE)
    (hpdf : pdfStep env req = Except.ok atts) :
    (process_notification env st0 op_id req).2.ops
      = if runAllDoneB env st0 op_id req
        then update_operation_status (runOpTableLoop env st0 op_id req) op_id "done" none
        else runOpTableLoop env st0 op_id req := by
  rw [process_notification_ok env st0 op_id req atts hpdf]
  have hc := createChannels_spec env op_id req.channels 0 (stOpStatus st0 op_id "running" none)
  simp only [stOpStatus] at hc
  split <;> rename_i hcond <;> simp only [hcond, if_true, if_false] <;>
  · simp only [stOpStatus, hc, processChannels_ops]
    unfold runOpTableLoop
    rfl

theorem run_final_trace (env : DispatchEnv) (st0 : DbState) (op_id : String)
    (req : NotificationRequestE) (atts : List EmailAttachmentE)
    (hpdf : pdfStep env req = Except.ok atts) :
    ∃ post : List DbEvent,
      (process_notification env st0 op_id req).2.trace
        = st0.trace ++ [DbEvent.opWrite op_id "running" none]
          ++ createEvents env op_id 0 req.channels
          ++ loopEvents env req op_id 0 (mkPairs env 0 req.channels) ++ post := by
  rw [process_notification_ok env st0 op_id req atts hpdf]
  have hc := createChannels_spec env op_id req.channels 0 (stOpStatus st0 op_id "running" none)
  simp only [stOpStatus] at hc
  split
  · refine ⟨[DbEvent.opWrite op_id "done" none], ?_⟩
    simp only [stOpStatus, hc, processChannels_trace]
    try simp [List.append_assoc]
  · refine ⟨[], ?_⟩
    simp only [stOpStatus, hc, processChannels_trace]
    try simp [List.append_assoc]

theorem getElem?_some_lt {α : Type} (l : List α) (i : Nat) (a : α) (h : l[i]? = some a) :
    i < l.length := by
  by_contra hge
  rw [List.getElem?_eq_none (by omega)] at h
  exact Option.noConfusion h

theorem mem_mkPairs_snd (env : DispatchEnv) (chs : List String) (i : Nat) (cid : String)
    (h : cid ∈ (mkPairs env i chs).map Prod.snd) :
    ∃ k, k < chs.length ∧ cid = env.chanIds (i + k) := by
  rw [List.mem_iff_getElem?] at h
  obtain ⟨k, hk⟩ := h
  rw [List.getElem?_map, mkPairs_getElem?] at hk
  cases hck : chs[k]? with
  | none => rw [hck] at hk; simp at hk
  | some c =>
    rw [hck] at hk
    simp only [Option.map_map, Option.map_some', Function.comp, Option.some_inj] at hk
    exact ⟨k, getElem?_some_lt _ _ _ hck, hk.symm⟩

theorem runChanTable_decomp (env : DispatchEnv) (st0 : DbState) (op_id : String)
    (req : NotificationRequestE) (hfresh : ChanIdsFresh env st0 req.channels.length) :
    runChanTable env st0 op_id req
      = st0.chans
        ++ (createdRows env op_id 0 st0.time req.channels).map
             (chansLoopF env req 0 (st0.time + req.channels.length)
               (mkPairs env 0 req.channels)) := by
  unfold runChanTable
  rw [List.map_append]
  congr 1
  have hid : ∀ r ∈ st0.chans,
      chansLoopF env req 0 (st0.time + req.channels.length) (mkPairs env 0 req.channels) r
        = r := by
    intro r hr
    refine chansLoopF_of_not_mem env req _ _ _ _ (fun hmem => ?_)
    obtain ⟨k, hk, he⟩ := mem_mkPairs_snd env req.channels 0 r.id hmem
    rw [Nat.zero_add] at he
    exact hfresh k hk r hr he
  calc st0.chans.map
        (chansLoopF env req 0 (st0.time + req.channels.length) (mkPairs env 0 req.channels))
      = st0.chans.map id := List.map_congr_left (fun r hr => hid r hr)
    _ = st0.chans := List.map_id st0.chans

/-- The channel row as inserted by the creation loop for position `k` (clock
base `t`, channel tag `name`). -/
def pendingRow (env : DispatchEnv) (op_id : String) (k t : Nat) (name : String) : ChannelRow :=
  { id := env.chanIds k, operation_id := op_id, channel := name, status := "pending",
    error_message := none, created_at := t + k, updated_at := t + k, attempts := 0 }

theorem runChanTable_find? (env : DispatchEnv) (st0 : DbState) (op_id : String)
    (req : NotificationRequestE) (j : Nat) (name : String)
    (hinj : ChanIdsInj env req.channels.length)
    (hfresh : ChanIdsFresh env st0 req.channels.length)
    (hj : req.channels[j]? = some name) :
    (runChanTable env st0 op_id req).find? (fun r => r.id == env.chanIds j)
      = some (terminalChanRow (pendingRow env op_id j st0.time name)
          (channelResult env req j name)
          (st0.time + req.channels.length + 2 * j + 1)) := by
  have hjlen : j < req.channels.length := getElem?_some_lt _ _ _ hj
  rw [runChanTable_decomp env st0 op_id req hfresh, List.find?_append]
  have hbase : st0.chans.find? (fun r => r.id == env.chanIds j) = none := by
    rw [List.find?_eq_none]
    intro r hr
    simpa using hfresh j hjlen r hr
  rw [hbase, Option.none_or,
    find?_map_id_preserving _ _ (fun a => by rw [chansLoopF_id_preserved])]
  have hcr := find?_createdRows env op_id req.channels 0 st0.time j name
    (fun a b ha hb hab => by
      have := hinj a b ha hb hab
      rwa [← Nat.zero_add a, ← Nat.zero_add b] at this)
    hj
  rw [Nat.zero_add] at hcr
  rw [hcr, Option.map_some']
  have hnd := mkPairs_snd_nodup env req.channels 0
    (fun a b ha hb hab => by
      have := hinj a b ha hb hab
      rwa [← Nat.zero_add a, ← Nat.zero_add b] at this)
  have hkp : (mkPairs env 0 req.channels)[j]? = some (name, env.chanIds j) := by
    rw [mkPairs_getElem?, hj, Option.map_some', Nat.zero_add]
  have hat := chansLoopF_at env req (mkPairs env 0 req.channels) 0
    (st0.time + req.channels.length) j name (env.chanIds j)
    (pendingRow env op_id j st0.time name) hnd hkp rfl
  rw [Nat.zero_add] at hat
  exact congrArg some hat

theorem runAllDoneB_true_iff_chans (env : DispatchEnv) (st0 : DbState) (op_id : String)
    (req : NotificationRequestE) :
    runAllDoneB env st0 op_id req = true
      ↔ ∀ c ∈ runChanTable env st0 op_id req, c.operation_id = op_id → c.status = "done" := by
  unfold runAllDoneB list_channels_for_operation
  rw [List.all_eq_true]
  constructor
  · intro h c hc hop
    have := h c (by rw [List.mem_filter]; exact ⟨hc, by simpa using hop⟩)
    simpa using this
  · intro h c hc
    rw [List.mem_filter] at hc
    have := h c hc.1 (by simpa using hc.2)
    simpa using this

theorem runAllDoneB_iff_allOk (env : DispatchEnv) (st0 : DbState) (op_id : String)
    (req : NotificationRequestE)
    (hinj : ChanIdsInj env req.channels.length)
    (hfresh : ChanIdsFresh env st0 req.channels.length)
    (hnp : NoPriorChannels st0 op_id) :
    runAllDoneB env st0 op_id req = true ↔ allChannelsOk env req := by
  rw [runAllDoneB_true_iff_chans]
  rw [runChanTable_decomp env st0 op_id req hfresh]
  constructor
  · intro h k name hk
    have hklen : k < req.channels.length := getElem?_some_lt _ _ _ hk
    have hmem : pendingRow env op_id k st0.time name
        ∈ createdRows env op_id 0 st0.time req.channels := by
      rw [List.mem_iff_getElem?]
      refine ⟨k, ?_⟩
      rw [createdRows_getElem?, hk, Option.map_some', Nat.zero_add]
      rfl
    have hnd := mkPairs_snd_nodup env req.channels 0
      (fun a b ha hb hab => by
        have := hinj a b ha hb hab
        rwa [← Nat.zero_add a, ← Nat.zero_add b] at this)
    have hkp : (mkPairs env 0 req.channels)[k]? = some (name, env.chanIds k) := by
      rw [mkPairs_getElem?, hk, Option.map_some', Nat.zero_add]
    have hat := chansLoopF_at env req (mkPairs env 0 req.channels) 0
      (st0.time + req.channels.length) k name (env.chanIds k)
      (pendingRow env op_id k st0.time name) hnd hkp rfl
    rw [Nat.zero_add] at hat
    have hstat := h _ (List.mem_append_right _ (List.mem_map_of_mem _ hmem))
    rw [hat, terminalChanRow_operation_id] at hstat
    have hstat2 := hstat rfl
    rw [terminalChanRow_status] at hstat2
    cases hres : channelResult env req k name with
    | ok u => exact ⟨u, rfl⟩
    | error e => rw [hres] at hstat2; simp at hstat2
  · intro hok c hc hop
    rw [List.mem_append] at hc
    cases hc with
    | inl hbase => exact absurd hop (hnp c hbase)
    | inr hmapped =>
      rw [List.mem_map] at hmapped
      obtain ⟨r, hr, rfl⟩ := hmapped
      obtain ⟨hrop, k, name, hk, hid, hch, hst, hat0⟩ :=
        mem_createdRows env op_id req.channels 0 st0.time r hr
      rw [Nat.zero_add] at hid
      have hnd := mkPairs_snd_nodup env req.channels 0
        (fun a b ha hb hab => by
          have := hinj a b ha hb hab
          rwa [← Nat.zero_add a, ← Nat.zero_add b] at this)
      have hkp : (mkPairs env 0 req.channels)[k]? = some (name, env.chanIds k) := by
        rw [mkPairs_getElem?, hk, Option.map_some', Nat.zero_add]
      have hat := chansLoopF_at env req (mkPairs env 0 req.channels) 0
        (st0.time + req.channels.length) k name (env.chanIds k) r hnd hkp hid
      rw [Nat.zero_add] at hat
      rw [hat, terminalChanRow_status]
      obtain ⟨u, hu⟩ := hok k name hk
      rw [hu]

theorem run_opRow_done (env : DispatchEnv) (st0 : DbState) (op_id : String)
    (req : NotificationRequestE) (atts : List EmailAttachmentE)
    (hpdf : pdfStep env req = Except.ok atts)
    (hAll : runAllDoneB env st0 op_id req = true) :
    ∀ r ∈ (process_notification env st0 op_id req).2.ops, r.id = op_id →
      r.status = "done" ∧ r.error_message = none := by
  rw [run_final_ops env st0 op_id req atts hpdf, hAll, if_pos rfl]
  intro r hr hid
  unfold update_operation_status at hr
  rw [List.mem_map] at hr
  obtain ⟨a, _ha, rfl⟩ := hr
  rw [applyOpStatusUpd_id] at hid
  unfold applyOpStatusUpd
  rw [if_pos hid]
  exact ⟨rfl, rfl⟩

theorem run_opRow_failed (env : DispatchEnv) (st0 : DbState) (op_id : String)
    (req : NotificationRequestE) (atts : List EmailAttachmentE)
    (hpdf : pdfStep env req = Except.ok atts)
    (hNot : runAllDoneB env st0 op_id req = false)
    (k : Nat) (name : String) (e : List String)
    (hk : req.channels[k]? = some name)
    (he : channelResult env req k name = Except.error e) :
    ∀ r ∈ (process_notification env st0 op_id req).2.ops, r.id = op_id →
      r.status = "failed"
      ∧ r.error_message
          = (opFold env req 0 (mkPairs env 0 req.channels) ("running", none)).2 := by
  rw [run_final_ops env st0 op_id req atts hpdf, hNot]
  simp only [Bool.false_eq_true, if_false]
  intro r hr hid
  unfold runOpTableLoop at hr
  rw [List.mem_map] at hr
  obtain ⟨b, hb, rfl⟩ := hr
  unfold update_operation_status at hb
  rw [List.mem_map] at hb
  obtain ⟨a, _ha, rfl⟩ := hb
  rw [opsLoopF_id_preserved, applyOpStatusUpd_id] at hid
  have hbrow : applyOpStatusUpd op_id "running" none a
      = { a with status := "running", error_message := none } := by
    unfold applyOpStatusUpd
    rw [if_pos hid]
  rw [hbrow]
  rw [opsLoopF_of_eq env req op_id _ 0 _ (by rw [hid])]
  have hkp : (mkPairs env 0 req.channels)[k]? = some (name, env.chanIds k) := by
    rw [mkPairs_getElem?, hk, Option.map_some', Nat.zero_add]
  have hfold := opFold_fail_of_exists env req (mkPairs env 0 req.channels) 0 k name
    (env.chanIds k) e ("running", none) hkp (by rwa [Nat.zero_add])
  exact ⟨hfold, rfl⟩

theorem process_notification_ok_of_fst (env : DispatchEnv) (st0 : DbState) (op_id : String)
    (req : NotificationRequestE)
    (hok : (process_notification env st0 op_id req).1 = Except.ok ()) :
    ∃ atts, pdfStep env req = Except.ok atts := by
  cases hp : pdfStep env req with
  | ok a => exact ⟨a, rfl⟩
  | error e =>
    unfold process_notification at hok
    rw [hp] at hok
    simp at hok

/-- C1 — for every dispatch that runs to completion (`process_notification`
returns `Ok`), under fresh pairwise-distinct channel UUIDs and no
pre-existing channel rows of this operation: the final Operation status is
`done` iff every ChannelAttempt row of the operation is `done`; otherwise the
Operation is left at the `failed` status the loop last wrote (step 6 of
`NotificationService::process_notification`, lines 182–207). -/
theorem process_notification_done_iff_all_channels_done
    (env : DispatchEnv) (st0 : DbState) (op_id : String) (req : NotificationRequestE)
    (hinj : ChanIdsInj env req.channels.length)
    (hfresh : ChanIdsFresh env st0 req.channels.length)
    (hnp : NoPriorChannels st0 op_id)
    (hok : (process_notification env st0 op_id req).1 = Except.ok ()) :
    ∀ r ∈ (process_notification env st0 op_id req).2.ops, r.id = op_id →
      ((r.status = "done" ↔
          ∀ c ∈ (process_notification env st0 op_id req).2.chans,
            c.operation_id = op_id → c.status = "done")
        ∧ (r.status = "done" ∨ r.status = "failed")
        ∧ (r.status = "failed" →
            r.error_message
              = (opFold env req 0 (mkPairs env 0 req.channels) ("running", none)).2)) := by
  obtain ⟨atts, hpdf⟩ := process_notification_ok_of_fst env st0 op_id req hok
  intro r hr hid
  rw [run_final_chans env st0 op_id req atts hpdf]
  by_cases hAll : runAllDoneB env st0 op_id req = true
  · have hd := run_opRow_done env st0 op_id req atts hpdf hAll r hr hid
    exact ⟨iff_of_true hd.1 ((runAllDoneB_true_iff_chans env st0 op_id req).mp hAll),
      Or.inl hd.1,
      fun hfd => absurd (hfd.symm.trans hd.1) (by decide)⟩
  · have hNot : runAllDoneB env st0 op_id req = false := by
      rwa [Bool.not_eq_true] at hAll
    have hnotAllOk : ¬ allChannelsOk env req := fun hAllOk =>
      hAll ((runAllDoneB_iff_allOk env st0 op_id req hinj hfresh hnp).mpr hAllOk)
    unfold allChannelsOk at hnotAllOk
    push_neg at hnotAllOk
    obtain ⟨k, name, hk, hno⟩ := hnotAllOk
    have hexe : ∃ e, channelResult env req k name = Except.error e := by
      cases hres : channelResult env req k name with
      | ok u => exact absurd hres (hno u)
      | error e => exact ⟨e, rfl⟩
    obtain ⟨e, he⟩ := hexe
    have hf := run_opRow_failed env st0 op_id req atts hpdf hNot k name e hk he r hr hid
    refine ⟨iff_of_false (by simp [hf.1]) ?_, Or.inr hf.1, fun _ => hf.2⟩
    exact fun hc => hAll ((runAllDoneB_true_iff_chans env st0 op_id req).mpr hc)

/-- A dispatch environment where every external call succeeds. -/
def envAllOkW : DispatchEnv :=
  { pdfGen := Except.ok [37, 80, 68, 70], emailSend := fun _ => Except.ok (),
    whatsappSend := fun _ => Except.ok (), whatsappApiUrl := some "http://wa.example",
    whatsappSessionId := some "session-1", chanIds := fun k => "chan-" ++ toString k,
    opId := "op-1" }

/-- A store holding just the freshly created operation row. -/
def st0W : DbState :=
  { ops := [{ id := "op-1", operation_type := "send_notification", status := "pending",
              error_message := none, is_async := false, created_at := 0, updated_at := 0,
              metadata := none }],
    chans := [], trace := [], time := 1 }

/-- An email configuration for concrete runs. -/
def emailCfgW : EmailConfigE :=
  { smtp_host := "smtp.example.com", smtp_port := 587, smtp_user := "u@example.com",
    smtp_pass := "secret", recipients := ["to@example.com"] }

/-- A one-channel email request, no PDF, synchronous. -/
def reqEmailW : NotificationRequestE :=
  { channels := ["email"], email_config := some emailCfgW, whatsapp_config := none,
    subject := some "subject", body := some "body", async_send := false,
    pdf_html := none, pdf_attachment_name := none, other_attachments := none }

/-- Witness for C1 at a concrete successful one-channel run. -/
theorem process_notification_done_iff_witness :
    ((process_notification envAllOkW st0W "op-1" reqEmailW).1 = Except.ok ())
    ∧ (∀ r ∈ (process_notification envAllOkW st0W "op-1" reqEmailW).2.ops, r.id = "op-1" →
        ((r.status = "done" ↔
            ∀ c ∈ (process_notification envAllOkW st0W "op-1" reqEmailW).2.chans,
              c.operation_id = "op-1" → c.status = "done")
          ∧ (r.status = "done" ∨ r.status = "failed")
          ∧ (r.status = "failed" →
              r.error_message
                = (opFold envAllOkW reqEmailW 0 (mkPairs envAllOkW 0 reqEmailW.channels)
                    ("running", none)).2))) :=
  ⟨rfl,
   process_notification_done_iff_all_channels_done envAllOkW st0W "op-1" reqEmailW
     (by
       intro k l hk hl hne
       have h1 : reqEmailW.channels.length = 1 := rfl
       rw [h1] at hk hl
       exact absurd (by omega) hne)
     (fun k _hk r hr => absurd hr (List.not_mem_nil r))
     (fun r hr => absurd hr (List.not_mem_nil r))
     rfl⟩

theorem loopEvents_mem_opWrite (env : DispatchEnv) (req : NotificationRequestE)
    (op_id : String) (pairs : List (String × String)) :
    ∀ (i k : Nat) (name cid : String) (e : List String),
      pairs[k]? = some (name, cid) →
      channelResult env req (i + k) name = Except.error e →
      DbEvent.opWrite op_id "failed" (some (dbgFmt e))
        ∈ loopEvents env req op_id i pairs := by
  induction pairs with
  | nil => intro i k name cid e hk _; simp at hk
  | cons p rest ih =>
    intro i k name cid e hk herr
    rw [loopEvents]
    cases k with
    | zero =>
      rw [List.getElem?_cons_zero, Option.some_inj] at hk
      subst hk
      rw [Nat.add_zero] at herr
      refine List.mem_append_left _ ?_
      unfold iterEvents
      have hfst : ((name, cid) : String × String).1 = name := rfl
      rw [hfst, herr]
      simp
    | succ k' =>
      rw [List.getElem?_cons_succ] at hk
      refine List.mem_append_right _ (ih (i + 1) k' name cid e hk ?_)
      rwa [(by omega : i + 1 + k' = i + (k' + 1))]

/-- C3 — when the sender invocation of the channel at position `k` fails with
error `e` (and the dispatch runs to completion, with fresh distinct channel
ids): that ChannelAttempt ends `failed` carrying the Debug-formatted error
text with its attempts counter incremented to 1; the Operation receives a
`failed` write with the same text; and every other requested channel is still
driven to its own terminal status (`process_notification` lines 146–180). -/
theorem process_notification_failure_handling
    (env : DispatchEnv) (st0 : DbState) (op_id : String) (req : NotificationRequestE)
    (hinj : ChanIdsInj env req.channels.length)
    (hfresh : ChanIdsFresh env st0 req.channels.length)
    (hnp : NoPriorChannels st0 op_id)
    (hok : (process_notification env st0 op_id req).1 = Except.ok ())
    (k : Nat) (name : String) (e : List String)
    (hk : req.channels[k]? = some name)
    (he : channelResult env req k name = Except.error e) :
    (∃ row, (process_notification env st0 op_id req).2.chans.find?
          (fun r => r.id == env.chanIds k) = some row
        ∧ row.operation_id = op_id ∧ row.channel = name ∧ row.status = "failed"
        ∧ row.error_message = some (dbgFmt e) ∧ row.attempts = 1)
    ∧ DbEvent.opWrite op_id "failed" (some (dbgFmt e))
        ∈ (process_notification env st0 op_id req).2.trace
    ∧ (∀ j name2, req.channels[j]? = some name2 →
        ∃ row, (process_notification env st0 op_id req).2.chans.find?
            (fun r => r.id == env.chanIds j) = some row
          ∧ row.status = (match channelResult env req j name2 with
                          | Except.ok _ => "done"
                          | Except.error _ => "failed"))
    ∧ (∀ r ∈ (process_notification env st0 op_id req).2.ops, r.id = op_id →
        r.status = "failed") := by
  obtain ⟨atts, hpdf⟩ := process_notification_ok_of_fst env st0 op_id req hok
  refine ⟨?_, ?_, ?_, ?_⟩
  · rw [run_final_chans env st0 op_id req atts hpdf]
    have hfind := runChanTable_find? env st0 op_id req k name hinj hfresh hk
    rw [he] at hfind
    refine ⟨_, hfind, rfl, rfl, rfl, rfl, by simp [terminalChanRow, pendingRow]⟩
  · obtain ⟨post, htr⟩ := run_final_trace env st0 op_id req atts hpdf
    rw [htr]
    have hkp : (mkPairs env 0 req.channels)[k]? = some (name, env.chanIds k) := by
      rw [mkPairs_getElem?, hk, Option.map_some', Nat.zero_add]
    have hle := loopEvents_mem_opWrite env req op_id (mkPairs env 0 req.channels)
      0 k name (env.chanIds k) e hkp (by rwa [Nat.zero_add])
    simp only [List.mem_append]
    exact Or.inl (Or.inr hle)
  · intro j name2 hj
    rw [run_final_chans env st0 op_id req atts hpdf]
    refine ⟨_, runChanTable_find? env st0 op_id req j name2 hinj hfresh hj, ?_⟩
    rw [terminalChanRow_status]
  · have hnotAllOk : ¬ allChannelsOk env req := by
      intro hAllOk
      obtain ⟨u, hu⟩ := hAllOk k name hk
      rw [hu] at he
      exact Except.noConfusion he
    have hNot : runAllDoneB env st0 op_id req = false := by
      have := fun hAll =>
        hnotAllOk ((runAllDoneB_iff_allOk env st0 op_id req hinj hfresh hnp).mp hAll)
      rwa [← Bool.not_eq_true]
    exact fun r hr hid =>
      (run_opRow_failed env st0 op_id req atts hpdf hNot k name e hk he r hr hid).1

/-- A dispatch environment where the email send fails and everything else
succeeds. -/
def envEmailFailW : DispatchEnv :=
  { pdfGen := Except.ok [37, 80, 68, 70], emailSend := fun _ => Except.error ["smtp boom"],
    whatsappSend := fun _ => Except.ok (), whatsappApiUrl := some "http://wa.example",
    whatsappSessionId := some "session-1", chanIds := fun k => "chan-" ++ toString k,
    opId := "op-1" }

/-- A two-channel request (`email` then `whatsapp`), no PDF. -/
def reqTwoChanW : NotificationRequestE :=
  { channels := ["email", "whatsapp"],
    email_config := some emailCfgW, whatsapp_config := some { recipients := ["123@c.us"] },
    subject := some "subject", body := some "body", async_send := false,
    pdf_html := none, pdf_attachment_name := none, other_attachments := none }

/-- Witness for C3: the email channel fails, the sibling WhatsApp channel
still terminates on its own. -/
theorem process_notification_failure_handling_witness :
    ((process_notification envEmailFailW st0W "op-1" reqTwoChanW).1 = Except.ok ())
    ∧ ((∃ row, (process_notification envEmailFailW st0W "op-1" reqTwoChanW).2.chans.find?
          (fun r => r.id == envEmailFailW.chanIds 0) = some row
        ∧ row.operation_id = "op-1" ∧ row.channel = "email" ∧ row.status = "failed"
        ∧ row.error_message
            = some (dbgFmt ["(send_via_email) Fallo en email_service", "smtp boom"])
        ∧ row.attempts = 1)
      ∧ DbEvent.opWrite "op-1" "failed"
          (some (dbgFmt ["(send_via_email) Fallo en email_service", "smtp boom"]))
          ∈ (process_notification envEmailFailW st0W "op-1" reqTwoChanW).2.trace
      ∧ (∀ j name2, reqTwoChanW.channels[j]? = some name2 →
          ∃ row, (process_notification envEmailFailW st0W "op-1" reqTwoChanW).2.chans.find?
              (fun r => r.id == envEmailFailW.chanIds j) = some row
            ∧ row.status = (match channelResult envEmailFailW reqTwoChanW j name2 with
                            | Except.ok _ => "done"
                            | Except.error _ => "failed"))
      ∧ (∀ r ∈ (process_notification envEmailFailW st0W "op-1" reqTwoChanW).2.ops,
          r.id = "op-1" → r.status = "failed")) :=
  ⟨rfl,
   process_notification_failure_handling envEmailFailW st0W "op-1" reqTwoChanW
     (by
       intro k l hk hl hne
       have h2 : reqTwoChanW.channels.length = 2 := rfl
       rw [h2] at hk hl
       interval_cases k <;> interval_cases l <;> first | exact absurd rfl hne | decide)
     (fun k _hk r hr => absurd hr (List.not_mem_nil r))
     (fun r hr => absurd hr (List.not_mem_nil r))
     rfl 0 "email" ["(send_via_email) Fallo en email_service", "smtp boom"] rfl rfl⟩

theorem channelResult_unsupported (env : DispatchEnv) (req : NotificationRequestE)
    (i : Nat) (name : String) (h1 : name ≠ "email") (h2 : name ≠ "whatsapp") :
    channelResult env req i name = Except.error ["Canal no soportado: " ++ name] := by
  unfold channelResult
  rw [if_neg h1, if_neg h2]

theorem dbgFmt_singleton (s : String) : dbgFmt [s] = s := by
  unfold dbgFmt
  simp [String.intercalate]
  unfold String.intercalate.go
  rfl

/-- A request whose only channel tag is the unsupported `"sms"`. -/
def reqSmsW : NotificationRequestE :=
  { channels := ["sms"], email_config := none, whatsapp_config := none,
    subject := some "subject", body := some "body", async_send := false,
    pdf_html := none, pdf_attachment_name := none, other_attachments := none }

/-- Counterexample to C8: the claim says an unsupported channel tag is
recorded as `failed` with error text "unsupported channel".  On a concrete
run with channel `"sms"` the attempt is indeed `failed`, but the stored error
text is the dispatcher's Spanish message `Canal no soportado: sms`, not
"unsupported channel". -/
theorem unsupported_channel_error_text_counterexample :
    ((process_notification envAllOkW st0W "op-1" reqSmsW).2.chans.find?
        (fun r => r.id == "chan-0")).map (fun r => (r.status, r.error_message))
      = some ("failed", some "Canal no soportado: sms")
    ∧ (some "Canal no soportado: sms" : Option String) ≠ some "unsupported channel" := by
  constructor
  · rfl
  · decide

/-- C8 (amended) — a channel tag that is neither `email` nor `whatsapp` gets
its own ChannelAttempt recorded `failed` with error text
`Canal no soportado: <tag>` (the source's message; the spec's quoted
"unsupported channel" does not occur) and one attempts bump, while every
other requested channel still reaches the terminal status its own sender
outcome dictates. -/
theorem process_notification_unsupported_channel
    (env : DispatchEnv) (st0 : DbState) (op_id : String) (req : NotificationRequestE)
    (hinj : ChanIdsInj env req.channels.length)
    (hfresh : ChanIdsFresh env st0 req.channels.length)
    (hok : (process_notification env st0 op_id req).1 = Except.ok ())
    (k : Nat) (name : String)
    (hk : req.channels[k]? = some name)
    (hne : name ≠ "email") (hnw : name ≠ "whatsapp") :
    (∃ row, (process_notification env st0 op_id req).2.chans.find?
          (fun r => r.id == env.chanIds k) = some row
        ∧ row.operation_id = op_id ∧ row.channel = name ∧ row.status = "failed"
        ∧ row.error_message = some ("Canal no soportado: " ++ name) ∧ row.attempts = 1)
    ∧ (∀ j name2, j ≠ k → req.channels[j]? = some name2 →
        ∃ row, (process_notification env st0 op_id req).2.chans.find?
            (fun r => r.id == env.chanIds j) = some row
          ∧ row.status = (match channelResult env req j name2 with
                          | Except.ok _ => "done"
                          | Except.error _ => "failed")) := by
  obtain ⟨atts, hpdf⟩ := process_notification_ok_of_fst env st0 op_id req hok
  have he := channelResult_unsupported env req k name hne hnw
  constructor
  · rw [run_final_chans env st0 op_id req atts hpdf]
    have hfind := runChanTable_find? env st0 op_id req k name hinj hfresh hk
    rw [he] at hfind
    refine ⟨_, hfind, rfl, rfl, rfl, ?_, by simp [terminalChanRow, pendingRow]⟩
    show some (dbgFmt ["Canal no soportado: " ++ name]) = _
    rw [dbgFmt_singleton]
  · intro j name2 _hj hjk
    rw [run_final_chans env st0 op_id req atts hpdf]
    refine ⟨_, runChanTable_find? env st0 op_id req j name2 hinj hfresh hjk, ?_⟩
    rw [terminalChanRow_status]

/-- A request listing the unsupported `"sms"` channel followed by `email`. -/
def reqSmsEmailW : NotificationRequestE :=
  { channels := ["sms", "email"], email_config := some emailCfgW, whatsapp_config := none,
    subject := some "subject", body := some "body", async_send := false,
    pdf_html := none, pdf_attachment_name := none, other_attachments := none }

/-- Witness for C8 (amended): `"sms"` fails on its own row while the sibling
`email` channel still terminates on its own outcome. -/
theorem process_notification_unsupported_channel_witness :
    ((process_notification envAllOkW st0W "op-1" reqSmsEmailW).1 = Except.ok ())
    ∧ ((∃ row, (process_notification envAllOkW st0W "op-1" reqSmsEmailW).2.chans.find?
          (fun r => r.id == envAllOkW.chanIds 0) = some row
        ∧ row.operation_id = "op-1" ∧ row.channel = "sms" ∧ row.status = "failed"
        ∧ row.error_message = some ("Canal no soportado: " ++ "sms") ∧ row.attempts = 1)
      ∧ (∀ j name2, j ≠ 0 → reqSmsEmailW.channels[j]? = some name2 →
          ∃ row, (process_notification envAllOkW st0W "op-1" reqSmsEmailW).2.chans.find?
              (fun r => r.id == envAllOkW.chanIds j) = some row
            ∧ row.status = (match channelResult envAllOkW reqSmsEmailW j name2 with
                            | Except.ok _ => "done"
                            | Except.error _ => "failed"))) :=
  ⟨rfl,
   process_notification_unsupported_channel envAllOkW st0W "op-1" reqSmsEmailW
     (by
       intro k l hk hl hne
       have h2 : reqSmsEmailW.channels.length = 2 := rfl
       rw [h2] at hk hl
       interval_cases k <;> interval_cases l <;> first | exact absurd rfl hne | decide)
     (fun k _hk r hr => absurd hr (List.not_mem_nil r))
     rfl 0 "sms" rfl (by decide) (by decide)⟩

/-- An empty store: the handler itself creates the operation row. -/
def st0EmptyW : DbState := { ops := [], chans := [], trace := [], time := 0 }

/-- Counterexample to C4: the claim says a synchronous request returns HTTP
500 whenever the Operation's terminal status is `failed` (e.g. a channel
failure) and 200 only on success.  On a concrete synchronous run whose email
send fails, `process_notification` still returns `Ok` (channel failures are
persisted, not propagated), so the handler answers 200 — while the operation
row's terminal status is `failed`. -/
theorem sync_handler_200_despite_failed_counterexample :
    (send_unified_notification_endpoint envEmailFailW st0EmptyW reqEmailW).1.status = 200
    ∧ ((send_unified_notification_endpoint envEmailFailW st0EmptyW reqEmailW).2.ops.find?
        (fun r => r.id == "op-1")).map (fun r => r.status) = some "failed"
    ∧ reqEmailW.async_send = false := by
  refine ⟨rfl, rfl, rfl⟩

/-- C4 (amended) — for a synchronous request the handler's HTTP status
mirrors the dispatcher's `Result`, not the Operation's terminal status: 500
exactly when `process_notification` itself returns an error (e.g. a PDF
render failure), 200 when it returns `Ok` — including runs whose channels
failed and whose Operation is `failed` (see the counterexample).  The
response is computed only after `process_notification` has returned. -/
theorem sync_handler_status_mirrors_dispatcher_result (env : DispatchEnv) (st : DbState)
    (req : NotificationRequestE) (hasync : req.async_send = false) :
    (send_unified_notification_endpoint env st req).1.status
      = (match (process_notification env (handlerCreateOp env st req) env.opId req).1 with
         | Except.ok _ => 200
         | Except.error _ => 500)
    ∧ (send_unified_notification_endpoint env st req).1.operation_id = env.opId := by
  unfold send_unified_notification_endpoint
  rw [hasync]
  simp only [Bool.false_eq_true, if_false]
  cases hp : process_notification env (handlerCreateOp env st req) env.opId req with
  | mk res st2 => cases res <;> simp

/-- Witness for C4 (amended) at the concrete failing-email synchronous run. -/
theorem sync_handler_status_mirrors_witness :
    (reqEmailW.async_send = false)
    ∧ ((send_unified_notification_endpoint envEmailFailW st0EmptyW reqEmailW).1.status
        = (match (process_notification envEmailFailW
              (handlerCreateOp envEmailFailW st0EmptyW reqEmailW)
              envEmailFailW.opId reqEmailW).1 with
           | Except.ok _ => 200
           | Except.error _ => 500)
      ∧ (send_unified_notification_endpoint envEmailFailW st0EmptyW reqEmailW).1.operation_id
          = envEmailFailW.opId) :=
  ⟨rfl, sync_handler_status_mirrors_dispatcher_result envEmailFailW st0EmptyW reqEmailW rfl⟩

theorem process_notification_pdf_error (env : DispatchEnv) (st : DbState) (op_id : String)
    (req : NotificationRequestE) (htmlStr : String) (e : List String)
    (hh : req.pdf_html = some htmlStr) (hf : env.pdfGen = Except.error e) :
    process_notification env st op_id req
      = (Except.error ("Error generando PDF con pdf_service" :: e),
         stOpStatus st op_id "running" none) := by
  unfold process_notification pdfStep
  rw [hh, hf]

/-- A dispatch environment whose PDF render fails. -/
def envPdfFailW : DispatchEnv :=
  { pdfGen := Except.error ["Error generando PDF: net::ERR_ABORTED"],
    emailSend := fun _ => Except.ok (), whatsappSend := fun _ => Except.ok (),
    whatsappApiUrl := some "http://wa.example", whatsappSessionId := some "session-1",
    chanIds := fun k => "chan-" ++ toString k, opId := "op-1" }

/-- A synchronous email request that asks for a PDF. -/
def reqPdfW : NotificationRequestE :=
  { channels := ["email"], email_config := some emailCfgW, whatsapp_config := none,
    subject := some "subject", body := some "body", async_send := false,
    pdf_html := some "<h1>doc</h1>", pdf_attachment_name := none,
    other_attachments := none }

/-- Counterexample to C5: the claim says that on a PDF render failure the
state is unchanged apart from the Operation's own status/error fields.  On a
concrete failing run no row assignment that only rewrites `status` and
`error_message` of the operation row can produce the final table:
`mark_operation_failed` also refreshes `updated_at` (with
`CURRENT_TIMESTAMP`, a different clock and format than the creation
timestamp). -/
theorem pdf_failure_updated_at_counterexample :
    ¬ ∃ (s : String) (e2 : Option String),
      (send_unified_notification_endpoint envPdfFailW st0EmptyW reqPdfW).2.ops
        = (handlerCreateOp envPdfFailW st0EmptyW reqPdfW).ops.map
            (fun r => if r.id = "op-1" then { r with status := s, error_message := e2 }
                      else r) := by
  rintro ⟨s, e2, h⟩
  have h0 : ((send_unified_notification_endpoint envPdfFailW st0EmptyW reqPdfW).2.ops[0]?).map
      (fun r => r.updated_at) = some 1 := rfl
  rw [h] at h0
  simp [handlerCreateOp, stOpCreate, st0EmptyW, envPdfFailW] at h0

theorem applyMarkFailed_id (op_id : String) (error : String) (now : Nat) (r : OperationRow) :
    (applyMarkFailed op_id error now r).id = r.id := by
  unfold applyMarkFailed
  split <;> rfl

theorem failedWriteOps_spec (base : List OperationRow) (op_id txt : String) (t : Nat) :
    (∀ r ∈ mark_operation_failed (update_operation_status base op_id "running" none)
        op_id txt t,
      r.id = op_id → r.status = "failed" ∧ r.error_message = some txt)
    ∧ (∀ i : Nat, (base[i]?).map (fun r => r.id) ≠ some op_id →
        (mark_operation_failed (update_operation_status base op_id "running" none)
          op_id txt t)[i]? = base[i]?)
    ∧ (∀ i : Nat,
        ((mark_operation_failed (update_operation_status base op_id "running" none)
            op_id txt t)[i]?).map
            (fun r => (r.id, r.operation_type, r.is_async, r.created_at, r.metadata))
          = (base[i]?).map
              (fun r => (r.id, r.operation_type, r.is_async, r.created_at, r.metadata))) := by
  refine ⟨?_, ?_, ?_⟩
  · intro r hr hid
    unfold mark_operation_failed at hr
    rw [List.mem_map] at hr
    obtain ⟨a, _ha, rfl⟩ := hr
    rw [applyMarkFailed_id] at hid
    unfold applyMarkFailed
    rw [if_pos hid]
    exact ⟨rfl, rfl⟩
  · intro i h
    unfold mark_operation_failed update_operation_status
    rw [List.getElem?_map, List.getElem?_map]
    cases hb : base[i]? with
    | none => rfl
    | some r =>
      rw [hb] at h
      simp only [Option.map_some'] at h ⊢
      have hne : r.id ≠ op_id := fun he => h (by rw [he])
      rw [applyOpStatusUpd, if_neg hne, applyMarkFailed, if_neg hne]
  · intro i
    unfold mark_operation_failed update_operation_status
    rw [List.getElem?_map, List.getElem?_map]
    cases hb : base[i]? with
    | none => rfl
    | some r =>
      simp only [Option.map_some']
      by_cases hid : r.id = op_id <;>
        simp [applyOpStatusUpd, applyMarkFailed, applyOpStatusUpd_id, hid]

theorem handler_pdf_error_sync (env : DispatchEnv) (st0 : DbState)
    (req : NotificationRequestE) (htmlStr : String) (e : List String)
    (hh : req.pdf_html = some htmlStr) (hf : env.pdfGen = Except.error e)
    (hb : req.async_send = false) :
    send_unified_notification_endpoint env st0 req
      = ({ status := 500, success := false, operation_id := env.opId },
         stMarkFailed (stOpStatus (handlerCreateOp env st0 req) env.opId "running" none)
           env.opId
           ("Send failed: " ++ displayFmt ("Error generando PDF con pdf_service" :: e))) := by
  unfold send_unified_notification_endpoint
  rw [hb]
  simp only [Bool.false_eq_true, if_false]
  rw [process_notification_pdf_error env (handlerCreateOp env st0 req) env.opId req htmlStr
      e hh hf]

theorem handler_pdf_error_async (env : DispatchEnv) (st0 : DbState)
    (req : NotificationRequestE) (htmlStr : String) (e : List String)
    (hh : req.pdf_html = some htmlStr) (hf : env.pdfGen = Except.error e)
    (hb : req.async_send = true) :
    send_unified_notification_endpoint env st0 req
      = ({ status := 200, success := true, operation_id := env.opId },
         stMarkFailed (stOpStatus (handlerCreateOp env st0 req) env.opId "running" none)
           env.opId
           ("Async task error: " ++ dbgFmt ("Error generando PDF con pdf_service" :: e))) := by
  unfold send_unified_notification_endpoint
  rw [hb]
  simp only [eq_self_iff_true, if_true]
  rw [process_notification_pdf_error env (handlerCreateOp env st0 req) env.opId req htmlStr
      e hh hf]

/-- C5 (amended) — when `pdf_html` is present and the PDF render fails, the
dispatch stops before channel creation: no ChannelAttempt row is created (the
channel table is exactly the initial one); the Operation row is recorded
`failed` — the synchronous path stores
`Send failed: Error generando PDF con pdf_service` (only the outermost
`context` message survives `Display` formatting), the asynchronous path
stores `Async task error:` plus the Debug-formatted chain — and apart from
the Operation's `status`, `error_message` and `updated_at` (refreshed by
`mark_operation_failed`) every operation row and field is unchanged. -/
theorem pdf_failure_records_failed_no_channels (env : DispatchEnv) (st0 : DbState)
    (req : NotificationRequestE) (htmlStr : String) (e : List String)
    (hh : req.pdf_html = some htmlStr) (hf : env.pdfGen = Except.error e) :
    ((send_unified_notification_endpoint env st0 req).2.chans = st0.chans)
    ∧ ((send_unified_notification_endpoint env st0 req).1.status
        = if req.async_send then 200 else 500)
    ∧ (∀ r ∈ (send_unified_notification_endpoint env st0 req).2.ops, r.id = env.opId →
        r.status = "failed"
        ∧ r.error_message = some (if req.async_send
            then "Async task error: " ++ dbgFmt ("Error generando PDF con pdf_service" :: e)
            else "Send failed: " ++ "Error generando PDF con pdf_service"))
    ∧ (∀ i : Nat,
        (((handlerCreateOp env st0 req).ops[i]?).map (fun r => r.id) ≠ some env.opId) →
        (send_unified_notification_endpoint env st0 req).2.ops[i]?
          = (handlerCreateOp env st0 req).ops[i]?)
    ∧ (∀ i : Nat,
        ((send_unified_notification_endpoint env st0 req).2.ops[i]?).map
            (fun r => (r.id, r.operation_type, r.is_async, r.created_at, r.metadata))
          = ((handlerCreateOp env st0 req).ops[i]?).map
              (fun r => (r.id, r.operation_type, r.is_async, r.created_at, r.metadata))) := by
  have hspec := failedWriteOps_spec (handlerCreateOp env st0 req).ops env.opId
  cases hb : req.async_send with
  | false =>
    rw [handler_pdf_error_sync env st0 req htmlStr e hh hf hb]
    exact ⟨rfl, rfl, (hspec _ _).1, (hspec _ _).2.1, (hspec _ _).2.2⟩
  | true =>
    rw [handler_pdf_error_async env st0 req htmlStr e hh hf hb]
    exact ⟨rfl, rfl, (hspec _ _).1, (hspec _ _).2.1, (hspec _ _).2.2⟩

/-- Witness for C5 (amended) at the concrete failing-PDF synchronous run. -/
theorem pdf_failure_records_failed_witness :
    (reqPdfW.pdf_html = some "<h1>doc</h1>"
      ∧ envPdfFailW.pdfGen = Except.error ["Error generando PDF: net::ERR_ABORTED"])
    ∧ ((send_unified_notification_endpoint envPdfFailW st0EmptyW reqPdfW).2.chans
        = st0EmptyW.chans)
    ∧ (∀ r ∈ (send_unified_notification_endpoint envPdfFailW st0EmptyW reqPdfW).2.ops,
        r.id = envPdfFailW.opId →
        r.status = "failed"
        ∧ r.error_message = some (if reqPdfW.async_send
            then "Async task error: "
              ++ dbgFmt ("Error generando PDF con pdf_service"
                  :: ["Error generando PDF: net::ERR_ABORTED"])
            else "Send failed: " ++ "Error generando PDF con pdf_service")) :=
  ⟨⟨rfl, rfl⟩,
   (pdf_failure_records_failed_no_channels envPdfFailW st0EmptyW reqPdfW "<h1>doc</h1>"
      ["Error generando PDF: net::ERR_ABORTED"] rfl rfl).1,
   (pdf_failure_records_failed_no_channels envPdfFailW st0EmptyW reqPdfW "<h1>doc</h1>"
      ["Error generando PDF: net::ERR_ABORTED"] rfl rfl).2.2.1⟩
